import Mathlib

/-!
# h2spec: a verification development

A shallow embedding of the h2spec runner (`h2spec.go`) and of the test cases of
`generic/3_3_priority.go`, `http2/4_3_header_compression_and_decompression.go`,
`http2/6_7_ping.go` and `http2/6_9_2_initial_flow_control_window_size.go`.

The packages `spec`, `config`, `log`, `reporter` and the `x/net/http2` framer are
not part of the embedded sources.  What the embedded code calls from them is
taken as a parameter (`Runner`, `World`), so that every theorem holds for every
behaviour of the connection and of the peer.
-/

namespace H2spec

/-! ## Errors, configuration, test groups -/

/-- A non-nil Go `error` value as the test cases and the runner produce it: the
skip sentinel `spec.ErrSkipped`, a `*spec.TestError` with its two fields, or any
other error (transport, handshake, report writing), identified by its text. -/
inductive Error where
  | ErrSkipped
  | TestError (Expected : List String) (Actual : String)
  | other (msg : String)
  deriving DecidableEq, Repr

/-- The fields of `config.Config` read by the embedded code. -/
structure Config where
  DryRun : Bool
  JUnitReport : String
  deriving DecidableEq, Repr

/-- The counters of `spec.TestGroup` read by `Run` (Go `int`; they count test
cases, so no 64-bit wrap-around is modelled). -/
structure TestGroup where
  FailedCount : Int
  SkippedCount : Int
  PassedCount : Int
  deriving DecidableEq, Repr

/-- The observable calls `Run` makes on `log` and `reporter`, in order. The
duration printed by the "Finished in" line is not modelled. -/
inductive Effect where
  | SetIndentLevel (n : Nat)
  | Println (msg : String)
  | PrintlnFinished
  | FailedTests (specs : List TestGroup)
  | Summary (specs : List TestGroup)
  | JUnitReport (specs : List TestGroup) (path : String)
  deriving DecidableEq, Repr

/-- The collaborators of `Run` that are not part of the embedded sources:
the three catalogues `generic.Spec()`, `http2.Spec()`, `hpack.Spec()`, the method
`(*TestGroup).Test`, which runs a group and updates its counters in place, and
`reporter.JUnitReport`, which may fail. -/
structure Runner where
  genericSpec : TestGroup
  http2Spec : TestGroup
  hpackSpec : TestGroup
  Test : Config → TestGroup → TestGroup
  JUnitReport : List TestGroup → String → Option Error

/-- The local variables of `Run` that the `for _, s := range specs` loop updates,
with the groups already run (the slice holds pointers, so after the loop `specs`
holds the groups as `Test` left them). -/
structure RunVars where
  total : Int
  failed : Bool
  specs : List TestGroup
  deriving DecidableEq, Repr

/-- One iteration of the loop of `Run` (h2spec.go, lines 27-37). -/
def runStep (R : Runner) (c : Config) (v : RunVars) (s0 : TestGroup) : RunVars :=
  let s := R.Test c s0
  let failed := if s.FailedCount > 0 then true else v.failed
  let total := v.total + s.FailedCount
  let total := total + s.SkippedCount
  let total := total + s.PassedCount
  { total := total, failed := failed, specs := v.specs ++ [s] }

/-- The loop of `Run` over the three groups, from `total := 0`, `failed := false`. -/
def runLoop (R : Runner) (c : Config) : RunVars :=
  [R.genericSpec, R.http2Spec, R.hpackSpec].foldl (runStep R c)
    { total := 0, failed := false, specs := [] }

/-- Go `h2spec.Run` (h2spec.go, lines 16-68): the returned error (`none` is `nil`)
and the calls made on `log` and `reporter`. -/
def Run (R : Runner) (c : Config) : Option Error × List Effect :=
  let v := runLoop R c
  if c.DryRun then
    (none, [])
  else if v.total == 0 then
    (none, [Effect.SetIndentLevel 0, Effect.Println "No matched tests found."])
  else
    let out1 := if v.failed then [Effect.SetIndentLevel 0, Effect.FailedTests v.specs] else []
    let out2 := out1 ++ [Effect.SetIndentLevel 0, Effect.PrintlnFinished, Effect.Summary v.specs]
    if c.JUnitReport != "" then
      match R.JUnitReport v.specs c.JUnitReport with
      | some err => (some err, out2 ++ [Effect.JUnitReport v.specs c.JUnitReport])
      | none => (none, out2 ++ [Effect.JUnitReport v.specs c.JUnitReport])
    else
      (none, out2)

/-- The claim "Run returns a non-nil error iff some group has failed tests",
as a property of one runner and configuration. -/
def RunErrorIffFailed (R : Runner) (c : Config) : Prop :=
  (Run R c).1 ≠ none ↔
    ∃ g ∈ [R.genericSpec, R.http2Spec, R.hpackSpec], (R.Test c g).FailedCount > 0

/-- A runner whose `http2` group ends with one failed test and whose report
writer never fails. -/
def failingRunner : Runner where
  genericSpec := ⟨0, 0, 0⟩
  http2Spec := ⟨0, 0, 0⟩
  hpackSpec := ⟨0, 0, 0⟩
  Test := fun _ g => if g = ⟨0, 0, 0⟩ then ⟨1, 0, 2⟩ else g
  JUnitReport := fun _ _ => none

/-! ## Frames, events and the connection

The types below belong to package `spec` and to `x/net/http2`; only the fields
and constants used by the embedded test cases are kept. Octets are natural
numbers below 256, `uint32` values natural numbers below 2^32; the test cases
do no arithmetic on them apart from `streamID += 2` from 1. -/

/-- The fields of `http2.FrameHeader` that the test cases read through
`event.Header()`. -/
structure FrameHeader where
  Length : Nat
  Flags : Nat
  StreamID : Nat
  deriving DecidableEq, Repr

/-- Modelled from the spec: the type `spec.Event`, missing from the sources, as
the tagged variant of the data model ("DataFrame, HeadersFrame, ..., RawFrame,
ConnectionClosed, Timeout, Error"), each frame event with its frame header,
PING with its 8 octets of data, GOAWAY and RST_STREAM with their error code. In
the sources the DATA and timeout variants are matched as `spec.EventDataFrame`
and `spec.EventTimeout`, the others as `spec.PingFrameEvent`,
`spec.HeadersFrameEvent`. -/
inductive Event where
  | DataFrame (h : FrameHeader)
  | HeadersFrame (h : FrameHeader)
  | PriorityFrame (h : FrameHeader)
  | RstStreamFrame (h : FrameHeader) (ErrCode : Nat)
  | SettingsFrame (h : FrameHeader)
  | PushPromiseFrame (h : FrameHeader)
  | PingFrame (h : FrameHeader) (Data : List Nat)
  | GoAwayFrame (h : FrameHeader) (ErrCode : Nat)
  | WindowUpdateFrame (h : FrameHeader)
  | ContinuationFrame (h : FrameHeader)
  | RawFrame (h : FrameHeader)
  | ConnectionClosed
  | Timeout
  | Error (msg : String)
  deriving DecidableEq, Repr

/-- The constants `spec.EventDataFrame`, ..., passed to `WaitEventByType`. -/
inductive EventType where
  | DataFrame | HeadersFrame | PriorityFrame | RstStreamFrame | SettingsFrame
  | PushPromiseFrame | PingFrame | GoAwayFrame | WindowUpdateFrame | ContinuationFrame
  | RawFrame | ConnectionClosed | Timeout | Error
  deriving DecidableEq, Repr

/-- Go `http2.FrameType` values (RFC 7540, section 6). -/
def FrameData : Nat := 0x0
def FrameHeaders : Nat := 0x1
def FrameSettings : Nat := 0x4
def FramePing : Nat := 0x6

/-- Go `http2.ErrCode` values used by the test cases (RFC 7540, section 7). -/
def ErrCodeProtocol : Nat := 0x1
def ErrCodeFlowControl : Nat := 0x3
def ErrCodeFrameSize : Nat := 0x6
def ErrCodeCompression : Nat := 0x9

/-- Go `http2.SettingInitialWindowSize`. -/
def SettingInitialWindowSize : Nat := 0x4

/-- Go `http2.FlagPingAck`. -/
def FlagPingAck : Nat := 0x1

/-- Go `http2.Flags.Has`: `f & v == v`. -/
def Flags.Has (f v : Nat) : Bool := Nat.land f v == v

/-- Go `(*http2.PingFrame).IsAck`. -/
def FrameHeader.IsAck (h : FrameHeader) : Bool := Flags.Has h.Flags FlagPingAck

/-- Go `hpack.HeaderField` (name and value). -/
structure HeaderField where
  Name : String
  Value : String
  deriving DecidableEq, Repr

/-- Go `http2.HeadersFrameParam`, the fields the test cases set (`PadLength` and
`Priority` keep their zero value). -/
structure HeadersFrameParam where
  StreamID : Nat
  EndStream : Bool
  EndHeaders : Bool
  BlockFragment : List Nat
  deriving DecidableEq, Repr

/-- Go `http2.PriorityParam`. -/
structure PriorityParam where
  StreamDep : Nat
  Exclusive : Bool
  Weight : Nat
  deriving DecidableEq, Repr

/-- Go `http2.Setting`. -/
structure Setting where
  ID : Nat
  Val : Nat
  deriving DecidableEq, Repr

/-- What a test case asks the connection to write: one constructor per writer
method of `spec.Conn` used in the sources, `Raw` for `conn.Send`. -/
inductive Written where
  | Headers (hp : HeadersFrameParam)
  | Priority (streamID : Nat) (pp : PriorityParam)
  | Continuation (streamID : Nat) (endHeaders : Bool) (headerBlockFragment : List Nat)
  | Settings (settings : List Setting)
  | Ping (ack : Bool) (data : List Nat)
  | WindowUpdate (streamID : Nat) (incr : Nat)
  | Raw (payload : List Nat)
  deriving DecidableEq, Repr

/-- Package `spec` as the test cases see it, over an arbitrary state `σ` of the
transport, the peer, the HPACK tables and the event queue. None of these
functions is part of the embedded sources, so each is a parameter: the flag
`conn.Closed`, `Handshake`, `WaitEvent`, `WaitEventByType`, the verification
primitives, the header helpers, the effect on the transport of writing
(`transmit`, with the error the writer returns) and `Event.String()`. -/
structure World (σ : Type) where
  Closed : σ → Bool
  Handshake : σ → Option Error × σ
  WaitEvent : σ → Event × σ
  WaitEventByType : EventType → σ → (Event × Bool) × σ
  VerifyFrameType : Nat → σ → Option Error × σ
  VerifyConnectionError : List Nat → σ → Option Error × σ
  EncodeHeaders : List HeaderField → σ → List Nat × σ
  CommonHeaders : Config → List HeaderField
  DummyHeaders : Config → Nat → List HeaderField
  transmit : Written → σ → Option Error × σ
  EventString : Event → String

/-- A `*spec.Conn` during one test case: the state behind it and the record of
what the test case has asked it to write, oldest first. -/
structure Conn (σ : Type) where
  env : σ
  sent : List Written

/-- A call of a function of package `spec` on the connection. -/
def Conn.call {σ α : Type} (f : σ → α × σ) (conn : Conn σ) : α × Conn σ :=
  ((f conn.env).1, { conn with env := (f conn.env).2 })

/-- A writer method of the connection: the request is recorded and handed to
the transport; the writer's error is returned. -/
def Conn.write {σ : Type} (W : World σ) (w : Written) (conn : Conn σ) :
    Option Error × Conn σ :=
  ((W.transmit w conn.env).1, { env := (W.transmit w conn.env).2, sent := conn.sent ++ [w] })

/-- Go `fmt.Sprintf("%s", data)` for a byte array: the octets as characters. -/
def bytesString (data : List Nat) : String := String.mk (data.map Char.ofNat)

/-! ## http2/6_7_ping.go -/

/-- Go `[8]byte{'h', '2', 's', 'p', 'e', 'c'}`: six letters and two zero octets. -/
def h2specData : List Nat := [0x68, 0x32, 0x73, 0x70, 0x65, 0x63, 0, 0]

/-- Go `[8]byte{'i', 'n', 'v', 'a', 'l', 'i', 'd'}`. -/
def invalidData : List Nat := [0x69, 0x6e, 0x76, 0x61, 0x6c, 0x69, 0x64, 0]

/-- File 6_7_ping.go lines 31-52: what "Sends a PING frame" does with the pair
returned by `WaitEventByType(spec.EventPingFrame)`. -/
def pingVerdict {σ : Type} (W : World σ) (actual : Event) (matched : Bool) : Option Error :=
  let data := h2specData
  let passed := matched
  let passed :=
    match actual with
    | Event.PingFrame h d => if h.IsAck && d == data then true else passed
    | _ => false
  if !passed then
    let expected := ["PING Frame (length:8, flags:0x01, stream_id:0)"]
    some (Error.TestError expected (W.EventString actual))
  else
    none

/-- File 6_7_ping.go lines 22-53, test case "Sends a PING frame". -/
def PingSendsPing {σ : Type} (W : World σ) (_c : Config) (conn : Conn σ) :
    Option Error × Conn σ :=
  let r := conn.call W.Handshake
  match r.1 with
  | some err => (some err, r.2)
  | none =>
    let data := h2specData
    let conn := (r.2.write W (Written.Ping false data)).2
    let r := conn.call (W.WaitEventByType EventType.PingFrame)
    (pingVerdict W r.1.1 r.1.2, r.2)

/-- File 6_7_ping.go lines 75-107: what "Sends a PING frame with ACK" does with the
pair returned by `WaitEventByType(spec.EventPingFrame)`. -/
def pingAckVerdict {σ : Type} (W : World σ) (actual : Event) (matched : Bool) :
    Option Error :=
  let unexpectedData := invalidData
  let expectedData := h2specData
  let passed := matched
  let passed :=
    match actual with
    | Event.PingFrame h d =>
      if d == unexpectedData then false
      else if h.IsAck && d == expectedData then true
      else passed
    | _ => false
  if !passed then
    let expected := ["PING Frame (opaque_data: " ++ bytesString expectedData ++ ")"]
    let actualStr :=
      match actual with
      | Event.PingFrame _ d => "PING Frame (opaque_data: " ++ bytesString d ++ ")"
      | _ => W.EventString actual
    some (Error.TestError expected actualStr)
  else
    none

/-- File 6_7_ping.go lines 64-108, test case "Sends a PING frame with ACK". -/
def PingSendsPingWithAck {σ : Type} (W : World σ) (_c : Config) (conn : Conn σ) :
    Option Error × Conn σ :=
  let r := conn.call W.Handshake
  match r.1 with
  | some err => (some err, r.2)
  | none =>
    let unexpectedData := invalidData
    let expectedData := h2specData
    let conn := (r.2.write W (Written.Ping true unexpectedData)).2
    let conn := (conn.write W (Written.Ping false expectedData)).2
    let r := conn.call (W.WaitEventByType EventType.PingFrame)
    (pingAckVerdict W r.1.1 r.1.2, r.2)

/-- File 6_7_ping.go lines 117-129, test case "Sends a PING frame with a stream
identifier field value other than 0x0"; the errors of `Send` are dropped. -/
def PingStreamIdentifier {σ : Type} (W : World σ) (_c : Config) (conn : Conn σ) :
    Option Error × Conn σ :=
  let r := conn.call W.Handshake
  match r.1 with
  | some err => (some err, r.2)
  | none =>
    let conn := (r.2.write W (Written.Raw [0x00, 0x00, 0x08, 0x06, 0x00, 0x00, 0x00, 0x00, 0x01])).2
    let conn := (conn.write W (Written.Raw [0x00, 0x00, 0x00, 0x00, 0x00, 0x00, 0x00, 0x00])).2
    conn.call (W.VerifyConnectionError [ErrCodeProtocol])

/-- File 6_7_ping.go lines 138-150, test case "Sends a PING frame with a length field
value other than 8"; the errors of `Send` are dropped. -/
def PingLength {σ : Type} (W : World σ) (_c : Config) (conn : Conn σ) :
    Option Error × Conn σ :=
  let r := conn.call W.Handshake
  match r.1 with
  | some err => (some err, r.2)
  | none =>
    let conn := (r.2.write W (Written.Raw [0x00, 0x00, 0x06, 0x06, 0x00, 0x00, 0x00, 0x00, 0x01])).2
    let conn := (conn.write W (Written.Raw [0x00, 0x00, 0x00, 0x00, 0x00, 0x00])).2
    conn.call (W.VerifyConnectionError [ErrCodeFrameSize])

/-! ## generic/3_3_priority.go -/

/-- File 3_3_priority.go lines 46-65 (and the same lines of the three other test
cases): what a PRIORITY test case does with the pair returned by
`WaitEventByType(spec.EventHeadersFrame)`; both branches of the type switch
overwrite `passed`, so the returned flag is never read. -/
def priorityVerdict {σ : Type} (W : World σ) (streamID : Nat) (actual : Event)
    (_matched : Bool) : Option Error :=
  let passed :=
    match actual with
    | Event.HeadersFrame h => h.StreamID == streamID
    | _ => false
  if !passed then
    let expected := ["HEADERS Frame (stream_id:" ++ toString streamID ++ ")"]
    some (Error.TestError expected (W.EventString actual))
  else
    none

/-- File 3_3_priority.go lines 25-44 (and the same lines of the three other test
cases): the handshake, the PRIORITY frame and the request on `streamID`. The
four test cases differ only in the stream the PRIORITY frame is written on and
in its parameters. -/
def priorityRequest {σ : Type} (W : World σ) (c : Config) (conn : Conn σ)
    (streamID : Nat) (priorityStream : Nat) (pp : PriorityParam) : Option Error × Conn σ :=
  let r := conn.call W.Handshake
  match r.1 with
  | some err => (some err, r.2)
  | none =>
    let conn := (r.2.write W (Written.Priority priorityStream pp)).2
    let headers := W.CommonHeaders c
    let e := conn.call (W.EncodeHeaders headers)
    let hp : HeadersFrameParam :=
      { StreamID := streamID, EndStream := true, EndHeaders := true, BlockFragment := e.1 }
    (none, (e.2.write W (Written.Headers hp)).2)

/-- The body shared by the four test cases of `Priority`: the request, then
`WaitEventByType(spec.EventHeadersFrame)` and the verdict. -/
def priorityRun {σ : Type} (W : World σ) (c : Config) (conn : Conn σ)
    (streamID : Nat) (priorityStream : Nat) (pp : PriorityParam) : Option Error × Conn σ :=
  let r := priorityRequest W c conn streamID priorityStream pp
  match r.1 with
  | some err => (some err, r.2)
  | none =>
    let w := r.2.call (W.WaitEventByType EventType.HeadersFrame)
    (priorityVerdict W streamID w.1.1 w.1.2, w.2)

/-- File 3_3_priority.go lines 22-66, "Tests sending a PRIORITY frame with priority 1". -/
def PriorityWithPriority1 {σ : Type} (W : World σ) (c : Config) (conn : Conn σ) :
    Option Error × Conn σ :=
  let streamID := 1
  priorityRun W c conn streamID streamID { StreamDep := 0, Exclusive := false, Weight := 0 }

/-- File 3_3_priority.go lines 76-120, "Tests sending a PRIORITY frame with priority 256". -/
def PriorityWithPriority256 {σ : Type} (W : World σ) (c : Config) (conn : Conn σ) :
    Option Error × Conn σ :=
  let streamID := 1
  priorityRun W c conn streamID streamID { StreamDep := 0, Exclusive := false, Weight := 255 }

/-- File 3_3_priority.go lines 129-173, "Tests sending a PRIORITY frame with stream
dependency". -/
def PriorityWithStreamDependency {σ : Type} (W : World σ) (c : Config) (conn : Conn σ) :
    Option Error × Conn σ :=
  let streamID := 1
  priorityRun W c conn streamID (streamID + 2)
    { StreamDep := streamID, Exclusive := false, Weight := 0 }

/-- File 3_3_priority.go lines 182-226, "Tests sending a PRIORITY frame with exclusive". -/
def PriorityWithExclusive {σ : Type} (W : World σ) (c : Config) (conn : Conn σ) :
    Option Error × Conn σ :=
  let streamID := 1
  priorityRun W c conn streamID streamID { StreamDep := 0, Exclusive := true, Weight := 0 }

/-! ## http2/4_3_header_compression_and_decompression.go -/

/-- The octets that "Sends invalid header block fragment" passes to `Send`
(line 25). -/
def invalidHeaderBlockBytes : List Nat :=
  [0x00, 0x00, 0x01, 0x01, 0x05, 0x00, 0x00, 0x00, 0x01, 0x40]

/-- File 4_3_header_compression_and_decompression.go lines 17-31, test case "Sends
invalid header block fragment"; here the error of `Send` is returned. -/
def SendsInvalidHeaderBlockFragment {σ : Type} (W : World σ) (_c : Config) (conn : Conn σ) :
    Option Error × Conn σ :=
  let r := conn.call W.Handshake
  match r.1 with
  | some err => (some err, r.2)
  | none =>
    let r := r.2.write W (Written.Raw invalidHeaderBlockBytes)
    match r.1 with
    | some err => (some err, r.2)
    | none => r.2.call (W.VerifyConnectionError [ErrCodeCompression])

/-- File 4_3_header_compression_and_decompression.go lines 40-68, test case "Sends a
PRIORITY frame while sending the header blocks". -/
def SendsPriorityWhileSendingHeaderBlocks {σ : Type} (W : World σ) (c : Config)
    (conn : Conn σ) : Option Error × Conn σ :=
  let streamID := 1
  let r := conn.call W.Handshake
  match r.1 with
  | some err => (some err, r.2)
  | none =>
    let headers := W.CommonHeaders c
    let e := r.2.call (W.EncodeHeaders headers)
    let hp : HeadersFrameParam :=
      { StreamID := streamID, EndStream := false, EndHeaders := false, BlockFragment := e.1 }
    let conn := (e.2.write W (Written.Headers hp)).2
    let pp : PriorityParam := { StreamDep := 0, Exclusive := false, Weight := 255 }
    let conn := (conn.write W (Written.Priority streamID pp)).2
    let dummyHeaders := W.DummyHeaders c 1
    let e := conn.call (W.EncodeHeaders dummyHeaders)
    let conn := (e.2.write W (Written.Continuation streamID true e.1)).2
    conn.call (W.VerifyConnectionError [ErrCodeProtocol])

/-! ## http2/6_9_2_initial_flow_control_window_size.go, first and second test case

Both test cases contain two loops around `conn.WaitEvent()`. A loop is a
function of a number of iterations it may still make (`fuel`); `none` means
that the loop has not ended within that number. -/

/-- The result of a test case: it returned an error value (`none` is nil), or
it stopped on a method call on a nil interface value. -/
inductive Outcome where
  | returned (err : Option Error)
  | nilDereference
  deriving DecidableEq, Repr

/-- Where a part of a test case leaves control: the test case has returned, or
it goes on with the next statement. -/
inductive Progress (σ : Type) where
  | returned (err : Option Error) (conn : Conn σ)
  | continues (conn : Conn σ)

/-- The state of the connection after `k` further calls of `WaitEvent`. -/
def stateAfter {σ : Type} (W : World σ) : Nat → σ → σ
  | 0, s => s
  | k + 1, s => stateAfter W k (W.WaitEvent s).2

/-- The event that the call number `k` (from 0) of `WaitEvent` delivers. -/
def eventAt {σ : Type} (W : World σ) (k : Nat) (s : σ) : Event :=
  (W.WaitEvent (stateAfter W k s)).1

/-- Lines 26-38 of the first test case and 144-156 of the second: the
handshake and the first request, a HEADERS frame on stream 1. -/
def firstRequest {σ : Type} (W : World σ) (c : Config) (conn : Conn σ) :
    Option Error × Conn σ :=
  let streamID := 1
  let r := conn.call W.Handshake
  match r.1 with
  | some err => (some err, r.2)
  | none =>
    let headers := W.CommonHeaders c
    let e := r.2.call (W.EncodeHeaders headers)
    let hp1 : HeadersFrameParam :=
      { StreamID := streamID, EndStream := true, EndHeaders := true, BlockFragment := e.1 }
    (none, (e.2.write W (Written.Headers hp1)).2)

/-- Lines 41-49 of the first test case and 159-167 of the second:
`for resLen == -1 { ev := conn.WaitEvent(); ... resLen = int(event.Header().Length) }`.
The conversion of the `uint32` length to `int` keeps its value. -/
def responseLengthLoop {σ : Type} (W : World σ) : Nat → Int → σ → Option (Int × σ)
  | 0, resLen, s => if resLen == -1 then none else some (resLen, s)
  | fuel + 1, resLen, s =>
    if resLen == -1 then
      let r := W.WaitEvent s
      let resLen :=
        match r.1 with
        | Event.DataFrame h => (h.Length : Int)
        | _ => resLen
      responseLengthLoop W fuel resLen r.2
    else some (resLen, s)

/-- The type switch of the loops that wait for the DATA frame (lines 101-111
and 228-238): the new values of `actual` and `passed`. -/
def waitStep (ev : Event) (actual : Option Event) (passed : Bool) : Option Event × Bool :=
  match ev with
  | Event.DataFrame h => (some ev, h.Length == 1)
  | Event.Timeout => (if actual.isNone then some ev else actual, passed)
  | _ => (some ev, passed)

/-- Lines 98-116 of the first test case and 225-243 of the second:
`for !conn.Closed { ev := conn.WaitEvent(); switch ...; if passed { break } }`. -/
def waitDataLoop {σ : Type} (W : World σ) :
    Nat → Option Event → Bool → σ → Option (Option Event × Bool × σ)
  | 0, actual, passed, s => if W.Closed s then some (actual, passed, s) else none
  | fuel + 1, actual, passed, s =>
    if W.Closed s then some (actual, passed, s)
    else
      let r := W.WaitEvent s
      let v := waitStep r.1 actual passed
      if v.2 then some (v.1, v.2, r.2) else waitDataLoop W fuel v.1 v.2 r.2

/-- Lines 97-129 of the first test case and 224-256 of the second: the loop
from `actual == nil`, `passed := false`, and the verdict; `streamID` is the
stream of the second request. -/
def waitForData {σ : Type} (W : World σ) (fuel : Nat) (streamID : Nat) (conn : Conn σ) :
    Option (Outcome × Conn σ) :=
  match waitDataLoop W fuel none false conn.env with
  | none => none
  | some (actual, passed, env) =>
    let conn := { conn with env := env }
    if !passed then
      let expected :=
        ["DATA Frame (length:1, flags:0x00, stream_id:" ++ toString streamID ++ ")"]
      match actual with
      | none => some (Outcome.nilDereference, conn)
      | some ev => some (Outcome.returned (some (Error.TestError expected (W.EventString ev))), conn)
    else some (Outcome.returned none, conn)

/-- Lines 23-94 of the first test case, "Changes SETTINGS_INITIAL_WINDOW_SIZE
after sending HEADERS frame": everything before the loop that waits for the
DATA frame. -/
def changesWindowSetup {σ : Type} (W : World σ) (fuel : Nat) (c : Config) (conn : Conn σ) :
    Option (Progress σ) :=
  let streamID := 1
  let r := firstRequest W c conn
  match r.1 with
  | some err => some (Progress.returned (some err) r.2)
  | none =>
    let headers := W.CommonHeaders c
    match responseLengthLoop W fuel (-1) r.2.env with
    | none => none
    | some (resLen, env) =>
      let conn := { r.2 with env := env }
      if resLen < 1 then some (Progress.returned (some Error.ErrSkipped) conn)
      else
        let settings1 := [{ ID := SettingInitialWindowSize, Val := 0 : Setting }]
        let conn := (conn.write W (Written.Settings settings1)).2
        let v := conn.call (W.VerifyFrameType FrameSettings)
        match v.1 with
        | some err => some (Progress.returned (some err) v.2)
        | none =>
          let streamID := streamID + 2
          let e := v.2.call (W.EncodeHeaders headers)
          let hp2 : HeadersFrameParam :=
            { StreamID := streamID, EndStream := true, EndHeaders := true, BlockFragment := e.1 }
          let conn := (e.2.write W (Written.Headers hp2)).2
          let settings2 := [{ ID := SettingInitialWindowSize, Val := 1 : Setting }]
          let conn := (conn.write W (Written.Settings settings2)).2
          let v := conn.call (W.VerifyFrameType FrameSettings)
          match v.1 with
          | some err => some (Progress.returned (some err) v.2)
          | none => some (Progress.continues v.2)

/-- File 6_9_2_initial_flow_control_window_size.go lines 22-130, test case "Changes
SETTINGS_INITIAL_WINDOW_SIZE after sending HEADERS frame". -/
def ChangesInitialWindowSize {σ : Type} (W : World σ) (fuel : Nat) (c : Config)
    (conn : Conn σ) : Option (Outcome × Conn σ) :=
  match changesWindowSetup W fuel c conn with
  | none => none
  | some (Progress.returned err conn) => some (Outcome.returned err, conn)
  | some (Progress.continues conn) => waitForData W fuel (1 + 2) conn

/-- Lines 141-221 of the second test case, "Sends a SETTINGS frame for window
size to be negative": everything up to the WINDOW_UPDATE, before the loop that
waits for the DATA frame. -/
def negativeWindowSetup {σ : Type} (W : World σ) (fuel : Nat) (c : Config) (conn : Conn σ) :
    Option (Progress σ) :=
  let streamID := 1
  let r := firstRequest W c conn
  match r.1 with
  | some err => some (Progress.returned (some err) r.2)
  | none =>
    let headers := W.CommonHeaders c
    match responseLengthLoop W fuel (-1) r.2.env with
    | none => none
    | some (resLen, env) =>
      let conn := { r.2 with env := env }
      if resLen < 5 then some (Progress.returned (some Error.ErrSkipped) conn)
      else
        let settings1 := [{ ID := SettingInitialWindowSize, Val := 3 : Setting }]
        let conn := (conn.write W (Written.Settings settings1)).2
        let v := conn.call (W.VerifyFrameType FrameSettings)
        match v.1 with
        | some err => some (Progress.returned (some err) v.2)
        | none =>
          let streamID := streamID + 2
          let e := v.2.call (W.EncodeHeaders headers)
          let hp2 : HeadersFrameParam :=
            { StreamID := streamID, EndStream := true, EndHeaders := true, BlockFragment := e.1 }
          let conn := (e.2.write W (Written.Headers hp2)).2
          let v := conn.call (W.VerifyFrameType FrameData)
          match v.1 with
          | some err => some (Progress.returned (some err) v.2)
          | none =>
            let settings2 := [{ ID := SettingInitialWindowSize, Val := 2 : Setting }]
            let conn := (v.2.write W (Written.Settings settings2)).2
            let v := conn.call (W.VerifyFrameType FrameSettings)
            match v.1 with
            | some err => some (Progress.returned (some err) v.2)
            | none => some (Progress.continues (v.2.write W (Written.WindowUpdate streamID 2)).2)

/-- File 6_9_2_initial_flow_control_window_size.go lines 140-257, test case "Sends a
SETTINGS frame for window size to be negative". -/
def NegativeWindowSize {σ : Type} (W : World σ) (fuel : Nat) (c : Config) (conn : Conn σ) :
    Option (Outcome × Conn σ) :=
  match negativeWindowSetup W fuel c conn with
  | none => none
  | some (Progress.returned err conn) => some (Outcome.returned err, conn)
  | some (Progress.continues conn) => waitForData W fuel (1 + 2) conn

/-! ## http2/6_9_2_initial_flow_control_window_size.go, third test case -/

/-- File 6_9_2_initial_flow_control_window_size.go lines 266-278, test case "Sends a
SETTINGS_INITIAL_WINDOW_SIZE settings with an exceeded maximum window size
value"; the errors of `Send` are dropped. -/
def SendsExceededMaximumWindowSize {σ : Type} (W : World σ) (_c : Config) (conn : Conn σ) :
    Option Error × Conn σ :=
  let r := conn.call W.Handshake
  match r.1 with
  | some err => (some err, r.2)
  | none =>
    let conn := (r.2.write W (Written.Raw [0x00, 0x00, 0x06, 0x04, 0x00, 0x00, 0x00, 0x00, 0x00])).2
    let conn := (conn.write W (Written.Raw [0x00, 0x04, 0x80, 0x00, 0x00, 0x00])).2
    conn.call (W.VerifyConnectionError [ErrCodeFlowControl])

/-- Go `http2.FlagSettingsAck`. -/
def FlagSettingsAck : Nat := 0x1

/-! ## The wire format

The frame codec and the HPACK codec are not part of the embedded sources. The
layouts below follow the data model of the specification (RFC 7540, section 4.1
and 6; RFC 7541, sections 5 and 6) and serve to read the octets that the test
cases hand to `conn.Send`. -/

/-- The five fields of a frame header on the wire. -/
structure WireHeader where
  Length : Nat
  FrameType : Nat
  Flags : Nat
  Reserved : Nat
  StreamID : Nat
  deriving DecidableEq, Repr

/-- Modelled from the spec: the frame codec is missing; a frame "has a 9-octet
header (24-bit length, 8-bit type, 8-bit flags, 1 reserved bit, 31-bit stream
id) followed by a payload", big-endian. Returns the header and the octets after
it. -/
def parseFrameHeader : List Nat → Option (WireHeader × List Nat)
  | l0 :: l1 :: l2 :: t :: f :: s0 :: s1 :: s2 :: s3 :: rest =>
    some ({ Length := (l0 * 256 + l1) * 256 + l2, FrameType := t, Flags := f,
            Reserved := s0 / 128,
            StreamID := (((s0 % 128) * 256 + s1) * 256 + s2) * 256 + s3 }, rest)
  | _ => none

/-- Modelled from the spec: the SETTINGS payload, missing with the frame codec,
is "zero or more 6-octet (id, value) pairs", a 16-bit id and a 32-bit value,
big-endian. -/
def parseSettings : List Nat → Option (List Setting)
  | [] => some []
  | i0 :: i1 :: v0 :: v1 :: v2 :: v3 :: rest =>
    match parseSettings rest with
    | some l => some ({ ID := i0 * 256 + i1, Val := ((v0 * 256 + v1) * 256 + v2) * 256 + v3 } :: l)
    | none => none
  | _ => none

/-- Modelled from the spec: "INITIAL_WINDOW_SIZE (default 65535, max 2^31-1)". -/
def maxWindowSize : Nat := 2 ^ 31 - 1

/-- Go `http2.FlagHeadersEndStream`, `FlagHeadersEndHeaders`, `FlagHeadersPadded`,
`FlagHeadersPriority`. -/
def FlagHeadersEndStream : Nat := 0x1
def FlagHeadersEndHeaders : Nat := 0x4
def FlagHeadersPadded : Nat := 0x8
def FlagHeadersPriority : Nat := 0x20

/-- Modelled from the spec: the HEADERS payload, missing with the frame codec,
is "optional pad length, optional 5-octet priority block (if PRIORITY flag),
header block fragment, padding". Returns the header block fragment. -/
def headerBlockFragment (flags : Nat) (payload : List Nat) : Option (List Nat) :=
  let afterPad : Option (Nat × List Nat) :=
    if Flags.Has flags FlagHeadersPadded then
      match payload with
      | [] => none
      | padLength :: rest => some (padLength, rest)
    else some (0, payload)
  match afterPad with
  | none => none
  | some (padLength, rest) =>
    let afterPriority : Option (List Nat) :=
      if Flags.Has flags FlagHeadersPriority then
        if rest.length < 5 then none else some (rest.drop 5)
      else some rest
    match afterPriority with
    | none => none
    | some body =>
      if padLength > body.length then none else some (body.take (body.length - padLength))

/-- The errors of the HPACK decoder, as the specification lists them. -/
inductive DecodeError where
  | integerOverflow
  | indexZero
  | indexOutOfRange
  | sizeUpdateTooLarge
  | sizeUpdateNotAtStart
  | truncated
  | huffman
  | outOfFuel
  deriving DecidableEq, Repr

/-- The five header field representations of RFC 7541, section 6. -/
inductive Representation where
  | indexed
  | literalIncrementalIndexing
  | sizeUpdate
  | literalNeverIndexed
  | literalWithoutIndexing
  deriving DecidableEq, Repr

/-- Modelled from the spec: the HPACK codec is missing; the representations are
"indexed (0b1...), literal-with-incremental-indexing (0b01...),
literal-without-indexing (0b0000...), literal-never-indexed (0b0001...),
dynamic-table-size-update (0b001...)". The representation a first octet
announces, with the number of bits of its integer. -/
def classify (octet : Nat) : Representation × Nat :=
  if octet ≥ 128 then (Representation.indexed, 7)
  else if octet ≥ 64 then (Representation.literalIncrementalIndexing, 6)
  else if octet ≥ 32 then (Representation.sizeUpdate, 5)
  else if octet ≥ 16 then (Representation.literalNeverIndexed, 4)
  else (Representation.literalWithoutIndexing, 4)

/-- The continuation octets of an HPACK integer (RFC 7541, section 5.1): seven
bits each, least significant group first, the top bit set on all but the last. -/
def decodeIntegerRest (bound : Nat) : List Nat → Nat → Nat → Except DecodeError (Nat × List Nat)
  | [], _, _ => Except.error DecodeError.truncated
  | b :: rest, value, shift =>
    let value := value + (b % 128) * 2 ^ shift
    if value > bound then Except.error DecodeError.integerOverflow
    else if b / 128 % 2 == 1 then decodeIntegerRest bound rest value (shift + 7)
    else Except.ok (value, rest)

/-- Modelled from the spec: "integer primitive with N-bit prefix" of the
missing HPACK codec, with the errors "integer overflows an implementation
bound" and "truncated input". Returns the value and the octets after it. -/
def decodeInteger (bound : Nat) (n : Nat) : List Nat → Except DecodeError (Nat × List Nat)
  | [] => Except.error DecodeError.truncated
  | b :: rest =>
    let low := b % 2 ^ n
    if low < 2 ^ n - 1 then Except.ok (low, rest)
    else decodeIntegerRest bound rest low 0

/-- Modelled from the spec: "string primitive with optional Huffman" of the
missing HPACK codec: a flag bit, the length as a 7-bit integer, then that many
octets, Huffman-decoded when the flag is set. The Huffman table is a parameter. -/
def decodeString (bound : Nat) (huffmanDecode : List Nat → Option (List Nat))
    (input : List Nat) : Except DecodeError (List Nat × List Nat) :=
  match input with
  | [] => Except.error DecodeError.truncated
  | b :: _ =>
    match decodeInteger bound 7 input with
    | Except.error e => Except.error e
    | Except.ok (len, rest) =>
      if rest.length < len then Except.error DecodeError.truncated
      else if b ≥ 128 then
        match huffmanDecode (rest.take len) with
        | some str => Except.ok (str, rest.drop len)
        | none => Except.error DecodeError.huffman
      else Except.ok (rest.take len, rest.drop len)

/-- The state of an HPACK decoder: the static table (RFC 7541, Appendix A, a
parameter), the dynamic table with entries as octet strings, newest first, its
capacity and the maximum the settings allow, the integer bound and the Huffman
decoder. -/
structure Decoder where
  static : List (List Nat × List Nat)
  dynamic : List (List Nat × List Nat)
  capacity : Nat
  maxCapacity : Nat
  bound : Nat
  huffmanDecode : List Nat → Option (List Nat)

/-- The size of a table entry: "name bytes + value bytes + 32". -/
def entrySize (e : List Nat × List Nat) : Nat := e.1.length + e.2.length + 32

/-- The size of a table: the sum of the sizes of its entries. -/
def tableSize (t : List (List Nat × List Nat)) : Nat := (t.map entrySize).sum

/-- Eviction "from the oldest end to satisfy a size bound": the table is kept
newest first, so what remains is the longest run of newest entries whose sizes
add up to at most the capacity. -/
def evict (capacity : Nat) : List (List Nat × List Nat) → List (List Nat × List Nat)
  | [] => []
  | e :: t =>
    if entrySize e ≤ capacity then e :: evict (capacity - entrySize e) t else []

/-- Table lookup: index 1 is the first static entry, the dynamic table follows
the static one. -/
def Decoder.lookup (d : Decoder) (index : Nat) : Except DecodeError (List Nat × List Nat) :=
  if index == 0 then Except.error DecodeError.indexZero
  else
    match (d.static ++ d.dynamic).get? (index - 1) with
    | some e => Except.ok e
    | none => Except.error DecodeError.indexOutOfRange

/-- The name of a literal representation: a string when the index is 0, the
name of the indexed entry otherwise. -/
def Decoder.literalName (d : Decoder) (index : Nat) (rest : List Nat) :
    Except DecodeError (List Nat × List Nat) :=
  if index == 0 then decodeString d.bound d.huffmanDecode rest
  else
    match d.lookup index with
    | Except.ok e => Except.ok (e.1, rest)
    | Except.error e => Except.error e

/-- Modelled from the spec: one header field representation of the missing
HPACK decoder. Returns the decoded field, if the representation carries one,
the decoder after it and the octets left. `atStart` says whether only size
updates have been read in this header block. -/
def Decoder.decodeField (d : Decoder) (atStart : Bool) (input : List Nat) :
    Except DecodeError (Option (List Nat × List Nat) × Decoder × List Nat) :=
  match input with
  | [] => Except.error DecodeError.truncated
  | b :: _ =>
    match decodeInteger d.bound (classify b).2 input with
    | Except.error e => Except.error e
    | Except.ok (index, rest) =>
      match (classify b).1 with
      | Representation.indexed =>
        match d.lookup index with
        | Except.ok e => Except.ok (some e, d, rest)
        | Except.error e => Except.error e
      | Representation.sizeUpdate =>
        if !atStart then Except.error DecodeError.sizeUpdateNotAtStart
        else if index > d.maxCapacity then Except.error DecodeError.sizeUpdateTooLarge
        else Except.ok (none, { d with capacity := index, dynamic := evict index d.dynamic }, rest)
      | Representation.literalIncrementalIndexing =>
        match d.literalName index rest with
        | Except.error e => Except.error e
        | Except.ok (name, rest) =>
          match decodeString d.bound d.huffmanDecode rest with
          | Except.error e => Except.error e
          | Except.ok (value, rest) =>
            Except.ok (some (name, value),
              { d with dynamic := evict d.capacity ((name, value) :: d.dynamic) }, rest)
      | _ =>
        match d.literalName index rest with
        | Except.error e => Except.error e
        | Except.ok (name, rest) =>
          match decodeString d.bound d.huffmanDecode rest with
          | Except.error e => Except.error e
          | Except.ok (value, rest) => Except.ok (some (name, value), d, rest)

/-- The fields of a header block, one representation after the other. Every
representation consumes an octet, so fuel equal to the length suffices. -/
def Decoder.decodeFields (d : Decoder) (atStart : Bool) :
    Nat → List Nat → Except DecodeError (List (List Nat × List Nat) × Decoder)
  | _, [] => Except.ok ([], d)
  | 0, _ :: _ => Except.error DecodeError.outOfFuel
  | fuel + 1, b :: input =>
    match d.decodeField atStart (b :: input) with
    | Except.error e => Except.error e
    | Except.ok (field, d1, rest) =>
      match Decoder.decodeFields d1 (atStart && field.isNone) fuel rest with
      | Except.error e => Except.error e
      | Except.ok (fields, d2) =>
        Except.ok ((match field with | some f => f :: fields | none => fields), d2)

/-- Modelled from the spec: the decoder of the missing HPACK codec: "input is a
byte sequence; output is an ordered sequence of (name, value) pairs plus an
error signal". -/
def Decoder.decode (d : Decoder) (block : List Nat) :
    Except DecodeError (List (List Nat × List Nat) × Decoder) :=
  d.decodeFields true block.length block

/-! ## A conforming sender

The peer is not part of the repository. To relate the constants of the
negative-window test to RFC 7540 flow control, the stream-level window of a
sender that follows section 6.9 is modelled for one stream. -/

/-- What the sender does on the observed stream: it sets the stream's window
to a value, or sends a DATA frame of some length. -/
inductive SenderStep where
  | window (value : Int)
  | data (length : Nat)
  deriving DecidableEq, Repr

/-- Modelled from the spec: the peer under test is missing. For one stream, a
conforming sender keeps the flow-control window, "a signed counter of bytes the
sender may still transmit; adjusted by WINDOW_UPDATE frames and by
INITIAL_WINDOW_SIZE settings changes" (INITIAL_WINDOW_SIZE "default 65535"),
the number of octets of the response body still to send, and here the record
of its steps. The connection-level window is not modelled. -/
structure Sender where
  initialWindowSize : Int
  stream : Nat
  opened : Bool
  window : Int
  remaining : Nat
  steps : List SenderStep
  deriving DecidableEq, Repr

/-- A sender that has not yet received the request on `stream` and will answer
with a body of `body` octets. -/
def Sender.fresh (stream body : Nat) : Sender :=
  { initialWindowSize := 65535, stream := stream, opened := false, window := 0,
    remaining := body, steps := [] }

/-- The sender sets the window of the stream. -/
def Sender.setWindow (p : Sender) (value : Int) : Sender :=
  { p with window := value, steps := p.steps ++ [SenderStep.window value] }

/-- Modelled from the spec: the sender sends as many octets of the body as the
window allows, in one DATA frame, and only while the window is positive. -/
def Sender.send (p : Sender) : Sender :=
  if p.opened && decide (0 < p.window) && decide (0 < p.remaining) then
    let n := min p.window.toNat p.remaining
    { p with window := p.window - n, remaining := p.remaining - n,
             steps := p.steps ++ [SenderStep.data n, SenderStep.window (p.window - n)] }
  else p

/-- Modelled from the spec: a change of INITIAL_WINDOW_SIZE adjusts the window
of an open stream "by the difference between the new value and the old value"
(the requirement quoted at lines 15-18 of the test file). -/
def Sender.applySetting (p : Sender) (setting : Setting) : Sender :=
  if setting.ID == SettingInitialWindowSize then
    let q := { p with initialWindowSize := (setting.Val : Int) }
    if p.opened then q.setWindow (p.window + ((setting.Val : Int) - p.initialWindowSize)) else q
  else p

/-- The sender receives what the test case writes: a request opens the stream
with the current initial window, SETTINGS and WINDOW_UPDATE adjust the window,
and after each the sender sends what it may. -/
def Sender.receive (p : Sender) : Written → Sender
  | Written.Settings settings => (settings.foldl Sender.applySetting p).send
  | Written.Headers hp =>
    if hp.StreamID == p.stream && !p.opened then
      ({ p with opened := true }.setWindow p.initialWindowSize).send
    else p
  | Written.WindowUpdate streamID incr =>
    if streamID == p.stream && p.opened then (p.setWindow (p.window + (incr : Int))).send else p
  | _ => p

/-- The sender after a sequence of writes of the test case. -/
def Sender.run (p : Sender) (writes : List Written) : Sender := writes.foldl Sender.receive p

/-! ## A scripted connection

A concrete `World`, used to run the test cases on explicit inputs: the peer is
a finite list of events that it will deliver, in order. -/

/-- The variant of an event, `Event.Type()`. -/
def Event.Type : Event → EventType
  | Event.DataFrame _ => EventType.DataFrame
  | Event.HeadersFrame _ => EventType.HeadersFrame
  | Event.PriorityFrame _ => EventType.PriorityFrame
  | Event.RstStreamFrame _ _ => EventType.RstStreamFrame
  | Event.SettingsFrame _ => EventType.SettingsFrame
  | Event.PushPromiseFrame _ => EventType.PushPromiseFrame
  | Event.PingFrame _ _ => EventType.PingFrame
  | Event.GoAwayFrame _ _ => EventType.GoAwayFrame
  | Event.WindowUpdateFrame _ => EventType.WindowUpdateFrame
  | Event.ContinuationFrame _ => EventType.ContinuationFrame
  | Event.RawFrame _ => EventType.RawFrame
  | Event.ConnectionClosed => EventType.ConnectionClosed
  | Event.Timeout => EventType.Timeout
  | Event.Error _ => EventType.Error

/-- The frame type octet of a frame event, if the event is a known frame. -/
def Event.frameType : Event → Option Nat
  | Event.DataFrame _ => some 0x0
  | Event.HeadersFrame _ => some 0x1
  | Event.PriorityFrame _ => some 0x2
  | Event.RstStreamFrame _ _ => some 0x3
  | Event.SettingsFrame _ => some 0x4
  | Event.PushPromiseFrame _ => some 0x5
  | Event.PingFrame _ _ => some 0x6
  | Event.GoAwayFrame _ _ => some 0x7
  | Event.WindowUpdateFrame _ => some 0x8
  | Event.ContinuationFrame _ => some 0x9
  | _ => none

/-- The events after which the transport is closed. -/
def Event.terminal : Event → Bool
  | Event.ConnectionClosed => true
  | Event.Error _ => true
  | _ => false

/-- A rendering of an event, standing for `Event.String()`. -/
def Event.render : Event → String
  | Event.DataFrame h => "DATA Frame (length:" ++ toString h.Length ++ ", stream_id:" ++ toString h.StreamID ++ ")"
  | Event.HeadersFrame h => "HEADERS Frame (length:" ++ toString h.Length ++ ", stream_id:" ++ toString h.StreamID ++ ")"
  | Event.PingFrame h _ => "PING Frame (length:" ++ toString h.Length ++ ", flags:" ++ toString h.Flags ++ ")"
  | Event.GoAwayFrame _ code => "GOAWAY Frame (error_code:" ++ toString code ++ ")"
  | Event.SettingsFrame h => "SETTINGS Frame (length:" ++ toString h.Length ++ ", flags:" ++ toString h.Flags ++ ")"
  | Event.ConnectionClosed => "Connection closed"
  | Event.Timeout => "Timeout"
  | Event.Error msg => "Error: " ++ msg
  | _ => "Frame"

/-- The state of the scripted connection: the flag `Closed`, the result the
handshake will have, and the events the peer will still deliver. -/
structure Script where
  Closed : Bool
  handshake : Option Error
  queue : List Event
  deriving DecidableEq, Repr

/-- Modelled from the spec: `waitEvent()` "returns the next event" and "on
timeout, synthesizes a Timeout event", which "does not tear down the
connection"; `closed` becomes true on EOF or an unrecoverable read error; after
that an operation "surfaces as ConnectionClosed". -/
def Script.WaitEvent (s : Script) : Event × Script :=
  if s.Closed then (Event.ConnectionClosed, s)
  else
    match s.queue with
    | [] => (Event.Timeout, s)
    | ev :: q => (ev, { s with queue := q, Closed := ev.terminal })

/-- Consume events up to the first that satisfies `p`, or up to a terminal
event or a timeout: the last event consumed, whether it satisfies `p`, and
the events left. -/
def drainUntil (p : Event → Bool) : List Event → Event × Bool × List Event
  | [] => (Event.Timeout, false, [])
  | ev :: q =>
    if p ev then (ev, true, q)
    else if ev.terminal || ev == Event.Timeout then (ev, false, q)
    else drainUntil p q

/-- A primitive of the scripted connection that waits for an event satisfying
`p`. -/
def Script.waitFor (p : Event → Bool) (s : Script) : (Event × Bool) × Script :=
  if s.Closed then ((Event.ConnectionClosed, false), s)
  else
    let d := drainUntil p s.queue
    ((d.1, d.2.1), { s with queue := d.2.2, Closed := d.1.terminal })

/-- Modelled from the spec: `waitEventByType(t)` "drains events until one of
type t appears or a non-matching terminal event (ConnectionClosed, Error) or a
Timeout intervenes"; the flag says whether an event of type t appeared. -/
def Script.WaitEventByType (t : EventType) (s : Script) : (Event × Bool) × Script :=
  s.waitFor (fun ev => ev.Type == t)

/-- Whether an event is a SETTINGS frame with the ACK flag. -/
def Event.isSettingsAck : Event → Bool
  | Event.SettingsFrame h => Flags.Has h.Flags FlagSettingsAck
  | _ => false

/-- Modelled from the spec: `verifyFrameType(conn, type)` "succeeds iff the next
event (modulo ignorable settings-ack noise) is a frame of the given type".
SETTINGS acknowledgements that are not themselves of the given type are
dropped; the event after them is consumed and decides. -/
def Script.VerifyFrameType (t : Nat) (s : Script) : Option Error × Script :=
  if s.Closed then
    (some (Error.TestError ["Frame (type:" ++ toString t ++ ")"] Event.ConnectionClosed.render), s)
  else
    match s.queue.dropWhile (fun ev => ev.isSettingsAck && ev.frameType != some t) with
    | [] =>
      (some (Error.TestError ["Frame (type:" ++ toString t ++ ")"] Event.Timeout.render),
        { s with queue := [] })
    | ev :: rest =>
      (if ev.frameType == some t then none
        else some (Error.TestError ["Frame (type:" ++ toString t ++ ")"] ev.render),
        { s with queue := rest, Closed := ev.terminal })

/-- Modelled from the spec: `verifyConnectionError(conn, expectedCodes)`
"succeeds iff ... the driver observes either (a) a GOAWAY with error code in
expectedCodes, or (b) transport closure". -/
def Script.VerifyConnectionError (codes : List Nat) (s : Script) : Option Error × Script :=
  let accepts : Event → Bool := fun ev =>
    match ev with
    | Event.GoAwayFrame _ code => codes.contains code
    | Event.ConnectionClosed => true
    | _ => false
  let r := s.waitFor accepts
  (if r.1.2 then none else some (Error.TestError ["GOAWAY Frame", "Connection closed"] r.1.1.render),
    r.2)

/-- A stand-in for the HPACK encoder of the scripted connection: every field
as a literal without indexing, new name, no Huffman coding (RFC 7541, 6.2.2). -/
def plainEncode (headers : List HeaderField) : List Nat :=
  headers.flatMap fun f =>
    [0x00, f.Name.length] ++ f.Name.toList.map Char.toNat ++
      [f.Value.length] ++ f.Value.toList.map Char.toNat

/-- The scripted connection as a `World`. Writing never fails and does not
change what the peer will deliver. -/
def scripted : World Script where
  Closed := fun s => s.Closed
  Handshake := fun s => (s.handshake, s)
  WaitEvent := Script.WaitEvent
  WaitEventByType := Script.WaitEventByType
  VerifyFrameType := Script.VerifyFrameType
  VerifyConnectionError := Script.VerifyConnectionError
  EncodeHeaders := fun headers s => (plainEncode headers, s)
  CommonHeaders := fun _ =>
    [⟨":method", "GET"⟩, ⟨":scheme", "http"⟩, ⟨":path", "/"⟩, ⟨":authority", "localhost"⟩]
  DummyHeaders := fun _ n => (List.range n).map fun i => ⟨"x-dummy" ++ toString i, "dummy"⟩
  transmit := fun _ s => (none, s)
  EventString := Event.render

/-- A fresh scripted connection whose handshake succeeds and whose peer will
deliver the given events. -/
def freshConn (events : List Event) : Conn Script :=
  { env := { Closed := false, handshake := none, queue := events }, sent := [] }

/-- The configuration used in the examples. -/
def exampleConfig : Config := { DryRun := false, JUnitReport := "" }

/-- A PING frame event of length 8 on stream 0 with the given flags and data. -/
def pingEvent (flags : Nat) (data : List Nat) : Event :=
  Event.PingFrame { Length := 8, Flags := flags, StreamID := 0 } data

/-- Whether a DATA frame event has the given length and stream. -/
def Event.isDataOn (length stream : Nat) : Event → Bool
  | Event.DataFrame h => h.Length == length && h.StreamID == stream
  | _ => false

/-- Whether a write is a SETTINGS frame. -/
def Written.isSettings : Written → Bool
  | Written.Settings _ => true
  | _ => false

/-- The scripted connection when `negativeWindowSetup` has run against a peer
that delivers the given events and control reaches the waiting loop. -/
def negativeWindowLoopEntry (events : List Event) : Conn Script :=
  match negativeWindowSetup scripted 10 exampleConfig (freshConn events) with
  | some (Progress.continues conn) => conn
  | _ => freshConn []

/-- A peer for the negative-window test: a first response of 5 octets, the
acknowledgements of both SETTINGS frames, 3 octets on stream 3 as the next
event after the second request and then, after the WINDOW_UPDATE, 1 octet on
stream 3. -/
def conformingPeer : List Event :=
  [Event.HeadersFrame ⟨30, 0x4, 1⟩, Event.DataFrame ⟨5, 0x1, 1⟩, Event.SettingsFrame ⟨0, 0x1, 0⟩,
    Event.DataFrame ⟨3, 0x0, 3⟩, Event.SettingsFrame ⟨0, 0x1, 0⟩,
    Event.DataFrame ⟨1, 0x0, 3⟩]

/-- A peer that splits its first response of 6 octets into DATA frames of 5 and
of 1 octets, the second of which arrives late, and that sends nothing more on
stream 3 after the WINDOW_UPDATE. -/
def lateFirstStreamPeer : List Event :=
  [Event.HeadersFrame ⟨30, 0x4, 1⟩, Event.DataFrame ⟨5, 0x0, 1⟩, Event.SettingsFrame ⟨0, 0x1, 0⟩,
    Event.DataFrame ⟨3, 0x0, 3⟩, Event.SettingsFrame ⟨0, 0x1, 0⟩,
    Event.DataFrame ⟨1, 0x1, 1⟩]

/-- A peer that after the WINDOW_UPDATE sends two more DATA frames on stream 3,
of 2 octets and of 1 octet, as if the window had never been negative. -/
def overSendingPeer : List Event :=
  [Event.HeadersFrame ⟨30, 0x4, 1⟩, Event.DataFrame ⟨6, 0x1, 1⟩, Event.SettingsFrame ⟨0, 0x1, 0⟩,
    Event.DataFrame ⟨3, 0x0, 3⟩, Event.SettingsFrame ⟨0, 0x1, 0⟩,
    Event.DataFrame ⟨2, 0x0, 3⟩, Event.DataFrame ⟨1, 0x1, 3⟩]

/-- The connection with which a part of a test case ends. -/
def Progress.conn {σ : Type} : Progress σ → Conn σ
  | Progress.returned _ conn => conn
  | Progress.continues conn => conn

/-- A peer whose first response body has 3 octets. -/
def threeOctetPeer : List Event :=
  [Event.HeadersFrame ⟨30, 0x4, 1⟩, Event.DataFrame ⟨3, 0x1, 1⟩]

/-! ## Inputs for the loop that waits for the DATA frame -/

/-- A scripted connection on which the flag `conn.Closed` is already set. -/
def closedConn : Conn Script :=
  { env := { Closed := true, handshake := none, queue := [] }, sent := [] }

/-- A peer for the negative-window test that after the WINDOW_UPDATE sends a
DATA frame of 2 octets on stream 3 and then closes the connection. -/
def mismatchingPeer : List Event :=
  [Event.HeadersFrame ⟨30, 0x4, 1⟩, Event.DataFrame ⟨5, 0x1, 1⟩, Event.SettingsFrame ⟨0, 0x1, 0⟩,
    Event.DataFrame ⟨3, 0x0, 3⟩, Event.SettingsFrame ⟨0, 0x1, 0⟩,
    Event.DataFrame ⟨2, 0x0, 3⟩, Event.ConnectionClosed]

/-! ## The requirements on a PING frame -/

/-- The two requirements quoted in 6_7_ping.go at lines 111-113 and 132-134
(RFC 7540, section 6.7): a PING frame "with a stream identifier field value
other than 0x0" is a connection error of type PROTOCOL_ERROR, one "with a
length field value other than 8" a connection error of type FRAME_SIZE_ERROR.
The error codes of the requirements that a frame header violates. -/
def pingViolations (h : WireHeader) : List Nat :=
  (if h.Length != 8 then [ErrCodeFrameSize] else []) ++
    (if h.StreamID != 0 then [ErrCodeProtocol] else [])

/-- The positions at which two octet sequences differ. -/
def differingPositions (a b : List Nat) : List Nat :=
  (List.range (max a.length b.length)).filter fun i => a.get? i != b.get? i

/-! ## Theorems -/

theorem runLoop_eq (R : Runner) (c : Config) :
    runLoop R c =
      runStep R c (runStep R c (runStep R c ⟨0, false, []⟩ R.genericSpec) R.http2Spec)
        R.hpackSpec := rfl

theorem runLoop_failed (R : Runner) (c : Config) :
    (runLoop R c).failed = true ↔
      ∃ g ∈ [R.genericSpec, R.http2Spec, R.hpackSpec], (R.Test c g).FailedCount > 0 := by
  simp only [runLoop_eq, runStep, List.mem_cons, List.mem_singleton, List.not_mem_nil,
    or_false, exists_eq_or_imp, exists_eq_left]
  by_cases h1 : (R.Test c R.genericSpec).FailedCount > 0 <;>
  by_cases h2 : (R.Test c R.http2Spec).FailedCount > 0 <;>
  by_cases h3 : (R.Test c R.hpackSpec).FailedCount > 0 <;> simp [h1, h2, h3]

/-- The total that `Run` compares with 0 is the number of failed, skipped and
passed tests of the three groups after they have been run. -/
theorem runLoop_total (R : Runner) (c : Config) :
    (runLoop R c).total =
      (R.Test c R.genericSpec).FailedCount + (R.Test c R.genericSpec).SkippedCount +
        (R.Test c R.genericSpec).PassedCount +
      ((R.Test c R.http2Spec).FailedCount + (R.Test c R.http2Spec).SkippedCount +
        (R.Test c R.http2Spec).PassedCount) +
      ((R.Test c R.hpackSpec).FailedCount + (R.Test c R.hpackSpec).SkippedCount +
        (R.Test c R.hpackSpec).PassedCount) := by
  simp only [runLoop_eq, runStep]
  ring

/-- C1 (as stated, refuted): with one failed test in the http2 group and no
JUnit report requested, `Run` returns nil although a group has
`FailedCount > 0`. -/
theorem run_error_iff_failed_counterexample :
    ¬ RunErrorIffFailed failingRunner { DryRun := false, JUnitReport := "" } := by
  unfold RunErrorIffFailed
  intro h
  have hex : ∃ g ∈ [failingRunner.genericSpec, failingRunner.http2Spec,
      failingRunner.hpackSpec],
      (failingRunner.Test { DryRun := false, JUnitReport := "" } g).FailedCount > 0 :=
    ⟨⟨0, 0, 0⟩, by decide, by decide⟩
  exact (h.mpr hex) (by decide)

/-- C1 (amended): `Run` returns a non-nil error exactly when it is not a dry
run, at least one test was counted, a JUnit report path is configured and
`reporter.JUnitReport` fails, and the error returned is then the reporter's;
failed tests only decide whether `reporter.FailedTests` is called. -/
theorem run_error_iff_report_fails (R : Runner) (c : Config) :
    ((Run R c).1 ≠ none ↔
      (c.DryRun = false ∧ (runLoop R c).total ≠ 0 ∧ c.JUnitReport ≠ "" ∧
        R.JUnitReport (runLoop R c).specs c.JUnitReport ≠ none)) ∧
    ((Run R c).1 = none ∨ (Run R c).1 = R.JUnitReport (runLoop R c).specs c.JUnitReport) ∧
    (Effect.FailedTests (runLoop R c).specs ∈ (Run R c).2 ↔
      (c.DryRun = false ∧ (runLoop R c).total ≠ 0 ∧
        ∃ g ∈ [R.genericSpec, R.http2Spec, R.hpackSpec], (R.Test c g).FailedCount > 0)) := by
  rw [← runLoop_failed]
  unfold Run
  cases hd : c.DryRun <;> simp
  by_cases ht : (runLoop R c).total = 0 <;> simp [ht]
  by_cases hj : c.JUnitReport = "" <;>
  cases hf : (runLoop R c).failed <;>
  cases hr : R.JUnitReport (runLoop R c).specs c.JUnitReport <;> simp [hj]

/-! ### PING (6_7_ping.go) -/

/-- What "Sends a PING frame" really decides: it passes on a PING event that
is an ACK with the expected data, and also on any other PING event for which
`WaitEventByType` reported a match. -/
theorem pingVerdict_eq_none_iff {σ : Type} (W : World σ) (actual : Event) (matched : Bool) :
    pingVerdict W actual matched = none ↔
      ∃ h d, actual = Event.PingFrame h d ∧
        ((h.IsAck = true ∧ d = h2specData) ∨ matched = true) := by
  cases actual with
  | PingFrame h d =>
    simp only [pingVerdict, Event.PingFrame.injEq]
    by_cases hc : h.IsAck = true ∧ d = h2specData
    · have h1 : (h.IsAck && d == h2specData) = true := by simp [hc.1, hc.2]
      simp only [h1, if_true]
      exact ⟨fun _ => ⟨h, d, ⟨rfl, rfl⟩, Or.inl hc⟩, fun _ => by simp⟩
    · have h1 : (h.IsAck && d == h2specData) = false := by
        cases hi : h.IsAck
        · simp
        · simp only [Bool.true_and, beq_eq_false_iff_ne]
          exact fun hd => hc ⟨hi, hd⟩
      simp only [h1]
      constructor
      · intro hp
        refine ⟨h, d, ⟨rfl, rfl⟩, Or.inr ?_⟩
        cases matched
        · simp at hp
        · rfl
      · rintro ⟨h', d', ⟨rfl, rfl⟩, hor⟩
        rcases hor with hor | hor
        · exact absurd hor hc
        · simp [hor]
  | _ => simp [pingVerdict]

/-- What "Sends a PING frame with ACK" really decides. -/
theorem pingAckVerdict_eq_none_iff {σ : Type} (W : World σ) (actual : Event) (matched : Bool) :
    pingAckVerdict W actual matched = none ↔
      ∃ h d, actual = Event.PingFrame h d ∧ d ≠ invalidData ∧
        ((h.IsAck = true ∧ d = h2specData) ∨ matched = true) := by
  cases actual with
  | PingFrame h d =>
    simp only [pingAckVerdict, Event.PingFrame.injEq]
    by_cases hu : d = invalidData
    · have h0 : (d == invalidData) = true := by simp [hu]
      simp only [h0, if_true]
      constructor
      · intro hp
        simp at hp
      · rintro ⟨h', d', ⟨rfl, rfl⟩, hne, _⟩
        exact absurd hu hne
    · have h0 : (d == invalidData) = false := by simp [hu]
      simp only [h0]
      by_cases hc : h.IsAck = true ∧ d = h2specData
      · have h1 : (h.IsAck && d == h2specData) = true := by simp [hc.1, hc.2]
        simp only [h1, if_true]
        exact ⟨fun _ => ⟨h, d, ⟨rfl, rfl⟩, hu, Or.inl hc⟩, fun _ => by simp⟩
      · have h1 : (h.IsAck && d == h2specData) = false := by
          cases hi : h.IsAck
          · simp
          · simp only [Bool.true_and, beq_eq_false_iff_ne]
            exact fun hd => hc ⟨hi, hd⟩
        simp only [h1]
        constructor
        · intro hp
          refine ⟨h, d, ⟨rfl, rfl⟩, hu, Or.inr ?_⟩
          cases matched
          · simp at hp
          · rfl
        · rintro ⟨h', d', ⟨rfl, rfl⟩, _, hor⟩
          rcases hor with hor | hor
          · exact absurd hor hc
          · simp [hor]
  | _ => simp [pingAckVerdict]

/-- C2 (the code at the failing input): a peer answers the PING with a PING
frame that does NOT carry the ACK flag (flags 0x00), with the data echoed or,
for the first test, with all-zero data. `WaitEventByType(EventPingFrame)`
returns that event with the flag true, and both reply-waiting PING tests
return nil, although the event is not an ACK with the expected data. -/
theorem ping_tests_pass_without_ack :
    (scripted.WaitEventByType EventType.PingFrame (freshConn [pingEvent 0x0 h2specData]).env).1 =
      (pingEvent 0x0 h2specData, true) ∧
    (FrameHeader.IsAck { Length := 8, Flags := 0x0, StreamID := 0 }) = false ∧
    pingVerdict scripted (pingEvent 0x0 h2specData) true = none ∧
    pingAckVerdict scripted (pingEvent 0x0 h2specData) true = none ∧
    (PingSendsPing scripted exampleConfig (freshConn [pingEvent 0x0 h2specData])).1 = none ∧
    (PingSendsPing scripted exampleConfig
      (freshConn [pingEvent 0x0 [0, 0, 0, 0, 0, 0, 0, 0]])).1 = none ∧
    (PingSendsPingWithAck scripted exampleConfig
      (freshConn [pingEvent 0x0 h2specData])).1 = none := by
  decide

/-! ### Initial flow-control window size (6_9_2): the two loops -/

theorem stateAfter_succ {σ : Type} (W : World σ) (k : Nat) (s : σ) :
    stateAfter W (k + 1) s = stateAfter W k (W.WaitEvent s).2 := rfl

theorem eventAt_zero {σ : Type} (W : World σ) (s : σ) :
    eventAt W 0 s = (W.WaitEvent s).1 := rfl

theorem eventAt_succ {σ : Type} (W : World σ) (k : Nat) (s : σ) :
    eventAt W (k + 1) s = eventAt W k (W.WaitEvent s).2 := rfl

/-- Once `resLen` differs from -1 the response-length loop has ended. -/
theorem responseLengthLoop_done {σ : Type} (W : World σ) (fuel : Nat) (resLen : Int) (s : σ)
    (h : resLen ≠ -1) : responseLengthLoop W fuel resLen s = some (resLen, s) := by
  cases fuel <;> simp [responseLengthLoop, h]

/-- The response-length loop ends at the first DATA frame event, with its
length. -/
theorem responseLengthLoop_data {σ : Type} (W : World σ) :
    ∀ (k : Nat) (s : σ) (h : FrameHeader), eventAt W k s = Event.DataFrame h →
      (∀ j, j < k → ∀ h', eventAt W j s ≠ Event.DataFrame h') →
      ∀ fuel, k < fuel →
        responseLengthLoop W fuel (-1) s = some ((h.Length : Int), stateAfter W (k + 1) s) := by
  intro k
  induction k with
  | zero =>
    intro s h hev _ fuel hfuel
    obtain ⟨f, rfl⟩ : ∃ f, fuel = f + 1 := ⟨fuel - 1, by omega⟩
    rw [eventAt_zero] at hev
    have hne : (h.Length : Int) ≠ -1 := by omega
    simp only [responseLengthLoop, hev, beq_self_eq_true, if_true]
    exact responseLengthLoop_done W f _ _ hne
  | succ k ih =>
    intro s h hev hfirst fuel hfuel
    obtain ⟨f, rfl⟩ : ∃ f, fuel = f + 1 := ⟨fuel - 1, by omega⟩
    have h0 : ∀ h', (W.WaitEvent s).1 ≠ Event.DataFrame h' := fun h' =>
      hfirst 0 (Nat.succ_pos k) h'
    have hstep : responseLengthLoop W (f + 1) (-1) s =
        responseLengthLoop W f (-1) (W.WaitEvent s).2 := by
      simp only [responseLengthLoop, beq_self_eq_true, if_true]
    rw [hstep, stateAfter_succ]
    exact ih (W.WaitEvent s).2 h hev (fun j hj h' => hfirst (j + 1) (by omega) h') f (by omega)

/-- If the response-length loop ends, it has seen a first DATA frame event and
`resLen` is its length. -/
theorem responseLengthLoop_some {σ : Type} (W : World σ) :
    ∀ (fuel : Nat) (s : σ) (resLen : Int) (s' : σ),
      responseLengthLoop W fuel (-1) s = some (resLen, s') →
      ∃ k h, k < fuel ∧ eventAt W k s = Event.DataFrame h ∧
        (∀ j, j < k → ∀ h', eventAt W j s ≠ Event.DataFrame h') ∧
        resLen = (h.Length : Int) ∧ s' = stateAfter W (k + 1) s := by
  intro fuel
  induction fuel with
  | zero =>
    intro s resLen s' hl
    simp [responseLengthLoop] at hl
  | succ f ih =>
    intro s resLen s' hl
    simp only [responseLengthLoop, beq_self_eq_true, if_true] at hl
    by_cases hd : ∃ h, (W.WaitEvent s).1 = Event.DataFrame h
    · obtain ⟨h, hw⟩ := hd
      have hne : (h.Length : Int) ≠ -1 := by omega
      rw [hw] at hl
      simp only [responseLengthLoop_done W f _ _ hne, Option.some.injEq, Prod.mk.injEq] at hl
      exact ⟨0, h, Nat.succ_pos f, hw, fun j hj => absurd hj (Nat.not_lt_zero j), hl.1.symm,
        hl.2.symm⟩
    · have hstep : (match (W.WaitEvent s).1 with
          | Event.DataFrame h => (h.Length : Int)
          | _ => (-1 : Int)) = -1 := by
        cases hw : (W.WaitEvent s).1 with
        | DataFrame h' => exact absurd ⟨h', hw⟩ hd
        | _ => rfl
      rw [hstep] at hl
      obtain ⟨k, h, hk, hev, hfirst, hr, hs⟩ := ih _ _ _ hl
      refine ⟨k + 1, h, by omega, hev, ?_, hr, hs⟩
      intro j hj h'
      cases j with
      | zero => exact fun hw => hd ⟨h', hw⟩
      | succ j => exact hfirst j (by omega) h'

/-- More fuel does not change the result of a response-length loop that has
ended. -/
theorem responseLengthLoop_mono {σ : Type} (W : World σ) (fuel fuel' : Nat) (s : σ)
    (r : Int × σ) (h : responseLengthLoop W fuel (-1) s = some r) (hle : fuel ≤ fuel') :
    responseLengthLoop W fuel' (-1) s = some r := by
  obtain ⟨k, hd, hk, hev, hfirst, hr, hs⟩ := responseLengthLoop_some W fuel s r.1 r.2 h
  have := responseLengthLoop_data W k s hd hev hfirst fuel' (by omega)
  rw [this, ← hr, ← hs]

/-- The type switch sets `passed` exactly on a DATA frame event of length 1. -/
theorem waitStep_passed (ev : Event) (actual : Option Event) :
    (waitStep ev actual false).2 = true ↔ ∃ h, ev = Event.DataFrame h ∧ h.Length = 1 := by
  cases ev <;> simp [waitStep]

/-- If the waiting loop ends with `passed`, a DATA frame event of length 1 was
delivered while the connection was not closed. -/
theorem waitDataLoop_passed_sound {σ : Type} (W : World σ) :
    ∀ (fuel : Nat) (actual : Option Event) (s : σ) (a : Option Event) (s' : σ),
      waitDataLoop W fuel actual false s = some (a, true, s') →
      ∃ k h, k < fuel ∧ eventAt W k s = Event.DataFrame h ∧ h.Length = 1 ∧
        ∀ j, j ≤ k → W.Closed (stateAfter W j s) = false := by
  intro fuel
  induction fuel with
  | zero =>
    intro actual s a s' hl
    by_cases hc : W.Closed s = true <;> simp [waitDataLoop, hc] at hl
  | succ f ih =>
    intro actual s a s' hl
    by_cases hc : W.Closed s = true
    · simp [waitDataLoop, hc] at hl
    · have hc' : W.Closed s = false := by simpa using hc
      simp only [waitDataLoop, hc', Bool.false_eq_true, if_false] at hl
      by_cases hp : (waitStep (W.WaitEvent s).1 actual false).2 = true
      · obtain ⟨h, hev, hlen⟩ := (waitStep_passed _ _).mp hp
        refine ⟨0, h, Nat.succ_pos f, hev, hlen, ?_⟩
        intro j hj
        obtain rfl : j = 0 := by omega
        exact hc'
      · have hp' : (waitStep (W.WaitEvent s).1 actual false).2 = false := by simpa using hp
        simp only [hp', Bool.false_eq_true, if_false] at hl
        obtain ⟨k, h, hk, hev, hlen, hcl⟩ := ih _ _ _ _ hl
        refine ⟨k + 1, h, by omega, hev, hlen, ?_⟩
        intro j hj
        cases j with
        | zero => exact hc'
        | succ j => exact hcl j (by omega)

/-- If a DATA frame event of length 1 is delivered while the connection is not
closed, the waiting loop ends with `passed`. -/
theorem waitDataLoop_passed_complete {σ : Type} (W : World σ) :
    ∀ (k : Nat) (s : σ) (actual : Option Event) (h : FrameHeader),
      eventAt W k s = Event.DataFrame h → h.Length = 1 →
      (∀ j, j ≤ k → W.Closed (stateAfter W j s) = false) →
      ∀ fuel, k < fuel → ∃ a s', waitDataLoop W fuel actual false s = some (a, true, s') := by
  intro k
  induction k with
  | zero =>
    intro s actual h hev hlen hcl fuel hfuel
    obtain ⟨f, rfl⟩ : ∃ f, fuel = f + 1 := ⟨fuel - 1, by omega⟩
    have hc : W.Closed s = false := hcl 0 (Nat.le_refl 0)
    have hp : (waitStep (W.WaitEvent s).1 actual false).2 = true :=
      (waitStep_passed _ _).mpr ⟨h, hev, hlen⟩
    simp only [waitDataLoop, hc, Bool.false_eq_true, if_false, hp, if_true]
    exact ⟨_, _, rfl⟩
  | succ k ih =>
    intro s actual h hev hlen hcl fuel hfuel
    obtain ⟨f, rfl⟩ : ∃ f, fuel = f + 1 := ⟨fuel - 1, by omega⟩
    have hc : W.Closed s = false := hcl 0 (Nat.zero_le _)
    by_cases hp : (waitStep (W.WaitEvent s).1 actual false).2 = true
    · simp only [waitDataLoop, hc, Bool.false_eq_true, if_false, hp, if_true]
      exact ⟨_, _, rfl⟩
    · have hp' : (waitStep (W.WaitEvent s).1 actual false).2 = false := by simpa using hp
      simp only [waitDataLoop, hc, Bool.false_eq_true, if_false, hp']
      exact ih (W.WaitEvent s).2 _ h hev hlen (fun j hj => hcl (j + 1) (by omega)) f (by omega)

/-! ### Initial flow-control window size (6_9_2): the negative-window test -/

/-- More fuel does not change what the first part of the negative-window test
does, once its response-length loop has ended. -/
theorem negativeWindowSetup_mono {σ : Type} (W : World σ) (fuel fuel' : Nat) (c : Config)
    (conn : Conn σ) (p : Progress σ) (h : negativeWindowSetup W fuel c conn = some p)
    (hle : fuel ≤ fuel') : negativeWindowSetup W fuel' c conn = some p := by
  unfold negativeWindowSetup at h ⊢
  cases hr : (firstRequest W c conn).1 with
  | some err => simpa [hr] using h
  | none =>
    simp only [hr] at h ⊢
    cases hl : responseLengthLoop W fuel (-1) (firstRequest W c conn).2.env with
    | none => simp [hl] at h
    | some x =>
      rw [responseLengthLoop_mono W fuel fuel' _ x hl hle]
      rw [hl] at h
      exact h

/-- C3 (as stated, refuted): the negative-window test passes (returns nil)
against a peer whose only event after the WINDOW_UPDATE is a DATA frame of
length 1 on stream 1 and that never emits a DATA frame of length 1 on stream 3,
and against a peer that after the WINDOW_UPDATE emits two DATA frames on
stream 3, of length 2 and then of length 1. -/
theorem negative_window_counterexample :
    (negativeWindowLoopEntry lateFirstStreamPeer).env.queue = [Event.DataFrame ⟨1, 0x1, 1⟩] ∧
    lateFirstStreamPeer.filter (Event.isDataOn 1 3) = [] ∧
    (NegativeWindowSize scripted 10 exampleConfig (freshConn lateFirstStreamPeer)).map
      (fun r => r.1) = some (Outcome.returned none) ∧
    (negativeWindowLoopEntry overSendingPeer).env.queue =
      [Event.DataFrame ⟨2, 0x0, 3⟩, Event.DataFrame ⟨1, 0x1, 3⟩] ∧
    (NegativeWindowSize scripted 10 exampleConfig (freshConn overSendingPeer)).map
      (fun r => r.1) = some (Outcome.returned none) := by
  decide

/-- C3 (amended): when the negative-window test reaches its waiting loop, it
passes only if, after the WINDOW_UPDATE and while the connection is not closed,
`WaitEvent` delivers a DATA frame event of length 1; and a DATA frame event of
length 1 on stream 3 delivered while the connection is not closed makes the
test pass, whatever events, DATA frames of other lengths included, precede
it. -/
theorem negative_window_passes {σ : Type} (W : World σ) (fuel : Nat) (c : Config)
    (conn conn1 : Conn σ)
    (hsetup : negativeWindowSetup W fuel c conn = some (Progress.continues conn1)) :
    (∀ conn2, NegativeWindowSize W fuel c conn = some (Outcome.returned none, conn2) →
      ∃ k h, eventAt W k conn1.env = Event.DataFrame h ∧ h.Length = 1 ∧
        ∀ j, j ≤ k → W.Closed (stateAfter W j conn1.env) = false) ∧
    (∀ k h, eventAt W k conn1.env = Event.DataFrame h → h.Length = 1 → h.StreamID = 3 →
      (∀ j, j ≤ k → W.Closed (stateAfter W j conn1.env) = false) →
      ∀ fuel', fuel ≤ fuel' → k < fuel' →
        ∃ conn2, NegativeWindowSize W fuel' c conn = some (Outcome.returned none, conn2)) := by
  constructor
  · intro conn2 hres
    simp only [NegativeWindowSize, hsetup, waitForData] at hres
    cases hl : waitDataLoop W fuel none false conn1.env with
    | none => simp [hl] at hres
    | some r =>
      obtain ⟨a, passed, env⟩ := r
      cases passed with
      | false =>
        cases a <;> simp [hl] at hres
      | true =>
        obtain ⟨k, h, _, hev, hlen, hcl⟩ := waitDataLoop_passed_sound W fuel none _ a env hl
        exact ⟨k, h, hev, hlen, hcl⟩
  · intro k h hev hlen _ hcl fuel' hle hk
    have hsetup' := negativeWindowSetup_mono W fuel fuel' c conn _ hsetup hle
    obtain ⟨a, env, hl⟩ := waitDataLoop_passed_complete W k conn1.env none h hev hlen hcl fuel' hk
    refine ⟨{ conn1 with env := env }, ?_⟩
    simp [NegativeWindowSize, hsetup', waitForData, hl]

/-- C3 (witness): the scripted peer that sends 1 octet on stream 3 after the
WINDOW_UPDATE. -/
theorem negative_window_passes_witness :
    negativeWindowSetup scripted 10 exampleConfig (freshConn conformingPeer) =
      some (Progress.continues (negativeWindowLoopEntry conformingPeer)) ∧
    ((∀ conn2, NegativeWindowSize scripted 10 exampleConfig (freshConn conformingPeer) =
        some (Outcome.returned none, conn2) →
      ∃ k h, eventAt scripted k (negativeWindowLoopEntry conformingPeer).env =
          Event.DataFrame h ∧ h.Length = 1 ∧
        ∀ j, j ≤ k →
          scripted.Closed (stateAfter scripted j (negativeWindowLoopEntry conformingPeer).env) =
            false) ∧
    (∀ k h, eventAt scripted k (negativeWindowLoopEntry conformingPeer).env =
        Event.DataFrame h → h.Length = 1 → h.StreamID = 3 →
      (∀ j, j ≤ k →
        scripted.Closed (stateAfter scripted j (negativeWindowLoopEntry conformingPeer).env) =
          false) →
      ∀ fuel', 10 ≤ fuel' → k < fuel' →
        ∃ conn2, NegativeWindowSize scripted fuel' exampleConfig (freshConn conformingPeer) =
          some (Outcome.returned none, conn2))) :=
  ⟨rfl, negative_window_passes scripted 10 exampleConfig (freshConn conformingPeer)
    (negativeWindowLoopEntry conformingPeer) rfl⟩

/-! ### PRIORITY (3_3_priority.go) -/

/-- The verdict of a PRIORITY test case on the pair returned by
`WaitEventByType`: nil exactly for a HEADERS event on the expected stream,
otherwise the `TestError` naming that stream and rendering the event. -/
theorem priorityVerdict_spec {σ : Type} (W : World σ) (actual : Event) (matched : Bool) :
    (priorityVerdict W 1 actual matched = none ↔
      ∃ h, actual = Event.HeadersFrame h ∧ h.StreamID = 1) ∧
    (priorityVerdict W 1 actual matched = none ∨
      priorityVerdict W 1 actual matched =
        some (Error.TestError ["HEADERS Frame (stream_id:1)"] (W.EventString actual))) := by
  have hstr : "HEADERS Frame (stream_id:" ++ toString 1 ++ ")" = "HEADERS Frame (stream_id:1)" := by
    decide
  cases actual with
  | HeadersFrame h =>
    by_cases hid : h.StreamID = 1
    · simp [priorityVerdict, hid]
    · simp [priorityVerdict, hid, hstr]
  | _ => simp [priorityVerdict, hstr]

/-- After a successful handshake a PRIORITY test case returns the verdict on
the pair that `WaitEventByType(EventHeadersFrame)` returns once the request is
written. -/
theorem priorityRun_verdict {σ : Type} (W : World σ) (c : Config) (conn : Conn σ)
    (streamID priorityStream : Nat) (pp : PriorityParam)
    (hs : (W.Handshake conn.env).1 = none) :
    (priorityRun W c conn streamID priorityStream pp).1 =
      priorityVerdict W streamID
        (W.WaitEventByType EventType.HeadersFrame
          (priorityRequest W c conn streamID priorityStream pp).2.env).1.1
        (W.WaitEventByType EventType.HeadersFrame
          (priorityRequest W c conn streamID priorityStream pp).2.env).1.2 := by
  have hreq : (priorityRequest W c conn streamID priorityStream pp).1 = none := by
    simp [priorityRequest, Conn.call, hs]
  simp only [priorityRun, hreq, Conn.call]

/-- C4: after a successful handshake, for each of the four PRIORITY test cases
and for the pair (actual, matched) that `WaitEventByType(EventHeadersFrame)`
returns once the test case has written its PRIORITY frame and its request, the
test case returns nil if and only if `actual` is a HEADERS frame event on
stream 1, whatever `matched` is; otherwise it returns the `TestError` whose
Expected is `["HEADERS Frame (stream_id:1)"]` and whose Actual is the
`String()` of `actual`. -/
theorem priority_tests_verdict {σ : Type} (W : World σ) (c : Config) (conn : Conn σ)
    (hs : (W.Handshake conn.env).1 = none) :
    ∀ q ∈ [((PriorityWithPriority1 W c conn).1,
              priorityRequest W c conn 1 1 (PriorityParam.mk 0 false 0)),
            ((PriorityWithPriority256 W c conn).1,
              priorityRequest W c conn 1 1 (PriorityParam.mk 0 false 255)),
            ((PriorityWithStreamDependency W c conn).1,
              priorityRequest W c conn 1 3 (PriorityParam.mk 1 false 0)),
            ((PriorityWithExclusive W c conn).1,
              priorityRequest W c conn 1 1 (PriorityParam.mk 0 true 0))],
      ∀ actual matched,
        (W.WaitEventByType EventType.HeadersFrame q.2.2.env).1 = (actual, matched) →
        (q.1 = none ↔ ∃ h, actual = Event.HeadersFrame h ∧ h.StreamID = 1) ∧
        (q.1 = none ∨
          q.1 = some (Error.TestError ["HEADERS Frame (stream_id:1)"]
            (W.EventString actual))) := by
  intro q hmem actual matched hpair
  have key : ∀ priorityStream pp,
      q = ((priorityRun W c conn 1 priorityStream pp).1,
        priorityRequest W c conn 1 priorityStream pp) →
      (q.1 = none ↔ ∃ h, actual = Event.HeadersFrame h ∧ h.StreamID = 1) ∧
      (q.1 = none ∨
        q.1 = some (Error.TestError ["HEADERS Frame (stream_id:1)"]
          (W.EventString actual))) := by
    intro priorityStream pp hq
    subst hq
    simp only at hpair ⊢
    rw [priorityRun_verdict W c conn 1 priorityStream pp hs, hpair]
    exact priorityVerdict_spec W actual matched
  simp only [List.mem_cons, List.mem_singleton, List.not_mem_nil, or_false] at hmem
  rcases hmem with h | h | h | h
  · exact key _ _ h
  · exact key _ _ h
  · exact key _ _ h
  · exact key _ _ h

/-- C4 (witness): the scripted peer that answers with HEADERS on stream 1. -/
theorem priority_tests_verdict_witness :
    (scripted.Handshake (freshConn [Event.HeadersFrame ⟨20, 0x4, 1⟩]).env).1 = none ∧
    ∀ q ∈ [((PriorityWithPriority1 scripted exampleConfig
                (freshConn [Event.HeadersFrame ⟨20, 0x4, 1⟩])).1,
              priorityRequest scripted exampleConfig
                (freshConn [Event.HeadersFrame ⟨20, 0x4, 1⟩]) 1 1 (PriorityParam.mk 0 false 0)),
            ((PriorityWithPriority256 scripted exampleConfig
                (freshConn [Event.HeadersFrame ⟨20, 0x4, 1⟩])).1,
              priorityRequest scripted exampleConfig
                (freshConn [Event.HeadersFrame ⟨20, 0x4, 1⟩]) 1 1 (PriorityParam.mk 0 false 255)),
            ((PriorityWithStreamDependency scripted exampleConfig
                (freshConn [Event.HeadersFrame ⟨20, 0x4, 1⟩])).1,
              priorityRequest scripted exampleConfig
                (freshConn [Event.HeadersFrame ⟨20, 0x4, 1⟩]) 1 3 (PriorityParam.mk 1 false 0)),
            ((PriorityWithExclusive scripted exampleConfig
                (freshConn [Event.HeadersFrame ⟨20, 0x4, 1⟩])).1,
              priorityRequest scripted exampleConfig
                (freshConn [Event.HeadersFrame ⟨20, 0x4, 1⟩]) 1 1 (PriorityParam.mk 0 true 0))],
      ∀ actual matched,
        (scripted.WaitEventByType EventType.HeadersFrame q.2.2.env).1 = (actual, matched) →
        (q.1 = none ↔ ∃ h, actual = Event.HeadersFrame h ∧ h.StreamID = 1) ∧
        (q.1 = none ∨
          q.1 = some (Error.TestError ["HEADERS Frame (stream_id:1)"]
            (scripted.EventString actual))) :=
  ⟨rfl, priority_tests_verdict scripted exampleConfig
    (freshConn [Event.HeadersFrame ⟨20, 0x4, 1⟩]) rfl⟩

/-! ### Header compression and decompression (4_3) -/

/-- C5: in "Sends a PRIORITY frame while sending the header blocks", when the
handshake fails the test writes nothing and returns the handshake error; when
it succeeds the test writes exactly HEADERS (stream 1, END_STREAM and
END_HEADERS unset, the encoded common headers), PRIORITY (stream 1, dependency
0, not exclusive, weight 255) and CONTINUATION (stream 1, END_HEADERS set, the
encoded dummy headers), in this order, and returns what
`VerifyConnectionError(conn, PROTOCOL_ERROR)` returns. -/
theorem priority_in_header_block_trace {σ : Type} (W : World σ) (c : Config) (conn : Conn σ) :
    SendsPriorityWhileSendingHeaderBlocks W c conn =
      match (W.Handshake conn.env).1 with
      | some err => (some err, { env := (W.Handshake conn.env).2, sent := conn.sent })
      | none =>
        let e1 := W.EncodeHeaders (W.CommonHeaders c) (W.Handshake conn.env).2
        let headers := Written.Headers (HeadersFrameParam.mk 1 false false e1.1)
        let s1 := (W.transmit headers e1.2).2
        let priority := Written.Priority 1 (PriorityParam.mk 0 false 255)
        let s2 := (W.transmit priority s1).2
        let e2 := W.EncodeHeaders (W.DummyHeaders c 1) s2
        let continuation := Written.Continuation 1 true e2.1
        let s3 := (W.transmit continuation e2.2).2
        ((W.VerifyConnectionError [ErrCodeProtocol] s3).1,
          { env := (W.VerifyConnectionError [ErrCodeProtocol] s3).2,
            sent := conn.sent ++ [headers, priority, continuation] }) := by
  cases hs : (W.Handshake conn.env).1 with
  | some err => simp [SendsPriorityWhileSendingHeaderBlocks, Conn.call, hs]
  | none =>
    simp [SendsPriorityWhileSendingHeaderBlocks, Conn.call, Conn.write, hs]

/-- The only octet of the header block sent by "Sends invalid header block
fragment" cannot be decoded: whatever the tables, the capacity, the integer
bound and the Huffman decoder, the name string is missing. -/
theorem decodeField_0x40_truncated (d : Decoder) (atStart : Bool) :
    d.decodeField atStart [0x40] = Except.error DecodeError.truncated := by
  have hc : classify 0x40 = (Representation.literalIncrementalIndexing, 6) := by decide
  have hi : decodeInteger d.bound 6 [0x40] = Except.ok (0, []) := by
    simp [decodeInteger]
  simp only [Decoder.decodeField, hc, hi, Decoder.literalName, decodeString]
  rfl

/-- C6: when the handshake succeeds "Sends invalid header block fragment"
hands to `Send` exactly the octets 00 00 01 01 05 00 00 00 01 40 (and nothing
when it fails): a frame header of length 1, type HEADERS, flags
END_STREAM|END_HEADERS, reserved bit 0, stream 1, and the one payload octet
0x40, which is the whole header block fragment. That octet announces a literal
header field with incremental indexing whose name index is 0, and no octet
follows it, so the decoder fails with "truncated input" for every decoder
state. -/
theorem invalid_header_block_bytes :
    (∀ (σ : Type) (W : World σ) (c : Config) (conn : Conn σ),
      (SendsInvalidHeaderBlockFragment W c conn).2.sent =
        match (W.Handshake conn.env).1 with
        | some _ => conn.sent
        | none => conn.sent ++
            [Written.Raw [0x00, 0x00, 0x01, 0x01, 0x05, 0x00, 0x00, 0x00, 0x01, 0x40]]) ∧
    invalidHeaderBlockBytes.length = 10 ∧
    parseFrameHeader invalidHeaderBlockBytes =
      some ({ Length := 1, FrameType := FrameHeaders, Flags := 0x05, Reserved := 0,
              StreamID := 1 }, [0x40]) ∧
    Nat.lor FlagHeadersEndStream FlagHeadersEndHeaders = 0x05 ∧
    headerBlockFragment 0x05 [0x40] = some [0x40] ∧
    classify 0x40 = (Representation.literalIncrementalIndexing, 6) ∧
    (∀ bound, decodeInteger bound 6 [0x40] = Except.ok (0, [])) ∧
    (∀ d : Decoder, d.decode [0x40] = Except.error DecodeError.truncated) := by
  refine ⟨?_, by decide, by decide, by decide, by decide, by decide, ?_, ?_⟩
  · intro σ W c conn
    cases hs : (W.Handshake conn.env).1 with
    | some err => simp [SendsInvalidHeaderBlockFragment, Conn.call, hs]
    | none =>
      simp only [SendsInvalidHeaderBlockFragment, Conn.call, Conn.write, hs,
        invalidHeaderBlockBytes]
      cases (W.transmit (Written.Raw [0x00, 0x00, 0x01, 0x01, 0x05, 0x00, 0x00, 0x00, 0x01,
        0x40]) (W.Handshake conn.env).2).1 <;> rfl
  · intro bound
    simp [decodeInteger]
  · intro d
    simp only [Decoder.decode, List.length_singleton, Decoder.decodeFields,
      decodeField_0x40_truncated]

/-! ### Raw frames (6_9_2, 6_7) -/

/-- C7: when the handshake succeeds the two `Send` calls of "Sends a
SETTINGS_INITIAL_WINDOW_SIZE settings with an exceeded maximum window size
value" are, in order, a 9-octet header of length 6, type SETTINGS (0x4), flags
0x0 (no ACK), stream 0, and 6 payload octets that decode as the single setting
(0x0004 INITIAL_WINDOW_SIZE, 0x80000000 = 2147483648 = 2^31), one more than the
maximum window size 2^31-1; the test returns what
`VerifyConnectionError(conn, FLOW_CONTROL_ERROR)` returns. When the handshake
fails the test writes nothing and returns the handshake error. -/
theorem exceeded_window_settings_frame {σ : Type} (W : World σ) (c : Config) (conn : Conn σ) :
    match (W.Handshake conn.env).1 with
    | some err =>
      SendsExceededMaximumWindowSize W c conn =
        (some err, { env := (W.Handshake conn.env).2, sent := conn.sent })
    | none =>
      ∃ header payload h,
        SendsExceededMaximumWindowSize W c conn =
          (let s2 := (W.transmit (Written.Raw payload)
              (W.transmit (Written.Raw header) (W.Handshake conn.env).2).2).2
           ((W.VerifyConnectionError [ErrCodeFlowControl] s2).1,
            { env := (W.VerifyConnectionError [ErrCodeFlowControl] s2).2,
              sent := conn.sent ++ [Written.Raw header, Written.Raw payload] })) ∧
        header.length = 9 ∧ parseFrameHeader header = some (h, []) ∧
        h.Length = 6 ∧ payload.length = h.Length ∧ h.FrameType = FrameSettings ∧
        h.Flags = 0x0 ∧ Flags.Has h.Flags FlagSettingsAck = false ∧ h.Reserved = 0 ∧
        h.StreamID = 0 ∧
        parseSettings payload = some [{ ID := SettingInitialWindowSize, Val := 2147483648 }] ∧
        SettingInitialWindowSize = 0x0004 ∧
        (2147483648 : Nat) = 0x80000000 ∧ (2147483648 : Nat) = 2 ^ 31 ∧
        (2147483648 : Nat) = maxWindowSize + 1 := by
  cases hs : (W.Handshake conn.env).1 with
  | some err => simp [SendsExceededMaximumWindowSize, Conn.call, hs]
  | none =>
    simp only [SendsExceededMaximumWindowSize, Conn.call, Conn.write, hs,
      List.append_assoc, List.singleton_append, List.cons_append, List.nil_append]
    refine ⟨_, _, _, rfl, ?_, rfl, ?_, ?_, ?_, ?_, ?_, ?_, ?_, ?_, ?_, ?_, ?_, ?_⟩ <;>
      decide

/-- C8: when the handshake succeeds each raw PING test hands to `Send`, in
order, a 9-octet frame header and then as many payload octets as its length
field declares, with type PING (0x6), flags 0x0 and reserved bit 0: together
00 00 08 06 00 00 00 00 01 and 8 zero octets in the stream-identifier test,
00 00 06 06 00 00 00 00 01 and 6 zero octets in the length test; the tests
return what `VerifyConnectionError` returns for PROTOCOL_ERROR and for
FRAME_SIZE_ERROR. When the handshake fails they write nothing and return the
handshake error. -/
theorem raw_ping_frames {σ : Type} (W : World σ) (c : Config) (conn : Conn σ) :
    match (W.Handshake conn.env).1 with
    | some err =>
      PingStreamIdentifier W c conn =
        (some err, { env := (W.Handshake conn.env).2, sent := conn.sent }) ∧
      PingLength W c conn = (some err, { env := (W.Handshake conn.env).2, sent := conn.sent })
    | none =>
      (∃ header payload h,
        PingStreamIdentifier W c conn =
          (let s2 := (W.transmit (Written.Raw payload)
              (W.transmit (Written.Raw header) (W.Handshake conn.env).2).2).2
           ((W.VerifyConnectionError [ErrCodeProtocol] s2).1,
            { env := (W.VerifyConnectionError [ErrCodeProtocol] s2).2,
              sent := conn.sent ++ [Written.Raw header, Written.Raw payload] })) ∧
        header.length = 9 ∧ parseFrameHeader header = some (h, []) ∧
        payload.length = h.Length ∧ h.FrameType = FramePing ∧ h.Flags = 0x0 ∧
        h.Reserved = 0 ∧
        header ++ payload = [0x00, 0x00, 0x08, 0x06, 0x00, 0x00, 0x00, 0x00, 0x01,
          0, 0, 0, 0, 0, 0, 0, 0]) ∧
      (∃ header payload h,
        PingLength W c conn =
          (let s2 := (W.transmit (Written.Raw payload)
              (W.transmit (Written.Raw header) (W.Handshake conn.env).2).2).2
           ((W.VerifyConnectionError [ErrCodeFrameSize] s2).1,
            { env := (W.VerifyConnectionError [ErrCodeFrameSize] s2).2,
              sent := conn.sent ++ [Written.Raw header, Written.Raw payload] })) ∧
        header.length = 9 ∧ parseFrameHeader header = some (h, []) ∧
        payload.length = h.Length ∧ h.FrameType = FramePing ∧ h.Flags = 0x0 ∧
        h.Reserved = 0 ∧
        header ++ payload = [0x00, 0x00, 0x06, 0x06, 0x00, 0x00, 0x00, 0x00, 0x01,
          0, 0, 0, 0, 0, 0]) := by
  cases hs : (W.Handshake conn.env).1 with
  | some err => simp [PingStreamIdentifier, PingLength, Conn.call, hs]
  | none =>
    simp only [PingStreamIdentifier, PingLength, Conn.call, Conn.write, hs,
      List.append_assoc, List.singleton_append, List.cons_append, List.nil_append]
    refine ⟨⟨_, _, _, rfl, ?_, rfl, ?_, ?_, ?_, ?_, ?_⟩,
      ⟨_, _, _, rfl, ?_, rfl, ?_, ?_, ?_, ?_, ?_⟩⟩ <;> decide

/-! ### Initial flow-control window size (6_9_2): the skip guards -/

/-- The first test case goes on to write SETTINGS(INITIAL_WINDOW_SIZE = 0) when
the measured length is at least 1. -/
theorem changesWindowSetup_not_skipped {σ : Type} (W : World σ) (fuel : Nat) (c : Config)
    (conn conn1 : Conn σ) (n : Int) (env : σ)
    (hreq : firstRequest W c conn = (none, conn1))
    (hloop : responseLengthLoop W fuel (-1) conn1.env = some (n, env)) (hn : 1 ≤ n) :
    ∃ p, changesWindowSetup W fuel c conn = some p ∧
      (conn1.sent ++ [Written.Settings [⟨SettingInitialWindowSize, 0⟩]]) <+: p.conn.sent := by
  have hn' : ¬ n < 1 := by omega
  simp only [changesWindowSetup, hreq, hloop, hn', if_false, Conn.call, Conn.write]
  split
  · exact ⟨_, rfl, List.prefix_refl _⟩
  · split
    · exact ⟨_, rfl, ⟨_, by simp [Progress.conn]; rfl⟩⟩
    · exact ⟨_, rfl, ⟨_, by simp [Progress.conn]; rfl⟩⟩

/-- The second test case goes on to write SETTINGS(INITIAL_WINDOW_SIZE = 3)
when the measured length is at least 5. -/
theorem negativeWindowSetup_not_skipped {σ : Type} (W : World σ) (fuel : Nat) (c : Config)
    (conn conn1 : Conn σ) (n : Int) (env : σ)
    (hreq : firstRequest W c conn = (none, conn1))
    (hloop : responseLengthLoop W fuel (-1) conn1.env = some (n, env)) (hn : 5 ≤ n) :
    ∃ p, negativeWindowSetup W fuel c conn = some p ∧
      (conn1.sent ++ [Written.Settings [⟨SettingInitialWindowSize, 3⟩]]) <+: p.conn.sent := by
  have hn' : ¬ n < 5 := by omega
  simp only [negativeWindowSetup, hreq, hloop, hn', if_false, Conn.call, Conn.write]
  split
  · exact ⟨_, rfl, List.prefix_refl _⟩
  · split
    · exact ⟨_, rfl, ⟨_, by simp [Progress.conn]; rfl⟩⟩
    · split
      · exact ⟨_, rfl, ⟨_, by simp [Progress.conn]; rfl⟩⟩
      · exact ⟨_, rfl, ⟨_, by simp [Progress.conn]; rfl⟩⟩

/-- A list does not start with a proper extension of itself. -/
theorem append_singleton_not_initial {α : Type} (l : List α) (a : α) : ¬ (l ++ [a]) <+: l := by
  intro h
  have := h.length_le
  simp at this

/-- C9 (the code at the failing input): in the negative-window test a first
DATA frame of the positive length 3 makes the test return `spec.ErrSkipped`
and no SETTINGS frame is written, because the guard is `resLen < 5`; the
comment above the guard and the guard of the first test case say that only
length 0 is skipped. -/
theorem negative_window_skips_length_three :
    threeOctetPeer.filter (fun ev => ev.Type == EventType.DataFrame) =
      [Event.DataFrame ⟨3, 0x1, 1⟩] ∧
    0 < (3 : Nat) ∧
    (NegativeWindowSize scripted 10 exampleConfig (freshConn threeOctetPeer)).map
      (fun r => (r.1, r.2.sent.filter Written.isSettings)) =
      some (Outcome.returned (some Error.ErrSkipped), []) := by
  decide

/-- The loop that waits for the DATA frame and the verdict write nothing. -/
theorem waitForData_sent {σ : Type} (W : World σ) (fuel streamID : Nat) (conn conn2 : Conn σ)
    (o : Outcome) (h : waitForData W fuel streamID conn = some (o, conn2)) :
    conn2.sent = conn.sent := by
  unfold waitForData at h
  split at h
  · simp at h
  · split at h
    · split at h <;>
      · simp only [Option.some.injEq, Prod.mk.injEq] at h
        rw [← h.2]
    · simp only [Option.some.injEq, Prod.mk.injEq] at h
      rw [← h.2]

/-- What the two skip guards decide: after a successful handshake, with `h`
the header of the first DATA frame event received, the first test case
returns `spec.ErrSkipped`
at its skip guard (nothing written after the first request) exactly when
`h.Length` is 0, and for every length of at least 1 it goes on to write the
SETTINGS frame with INITIAL_WINDOW_SIZE 0; the second test case returns
`spec.ErrSkipped` at its skip guard exactly when `h.Length` is less than 5, and
for every length of at least 5 it goes on to write the SETTINGS frame with
INITIAL_WINDOW_SIZE 3. -/
theorem skip_guards {σ : Type} (W : World σ) (c : Config) (conn conn1 : Conn σ) (k : Nat)
    (h : FrameHeader) (fuel : Nat)
    (hreq : firstRequest W c conn = (none, conn1))
    (hdata : eventAt W k conn1.env = Event.DataFrame h)
    (hfirst : ∀ j, j < k → ∀ h', eventAt W j conn1.env ≠ Event.DataFrame h')
    (hfuel : k < fuel) :
    (ChangesInitialWindowSize W fuel c conn =
        some (Outcome.returned (some Error.ErrSkipped),
          { conn1 with env := stateAfter W (k + 1) conn1.env }) ↔ h.Length = 0) ∧
    (1 ≤ h.Length → ∃ p, changesWindowSetup W fuel c conn = some p ∧
      (conn1.sent ++ [Written.Settings [⟨SettingInitialWindowSize, 0⟩]]) <+: p.conn.sent) ∧
    (NegativeWindowSize W fuel c conn =
        some (Outcome.returned (some Error.ErrSkipped),
          { conn1 with env := stateAfter W (k + 1) conn1.env }) ↔ h.Length < 5) ∧
    (5 ≤ h.Length → ∃ p, negativeWindowSetup W fuel c conn = some p ∧
      (conn1.sent ++ [Written.Settings [⟨SettingInitialWindowSize, 3⟩]]) <+: p.conn.sent) := by
  have hloop := responseLengthLoop_data W k conn1.env h hdata hfirst fuel hfuel
  have go1 : 1 ≤ h.Length → ∃ p, changesWindowSetup W fuel c conn = some p ∧
      (conn1.sent ++ [Written.Settings [⟨SettingInitialWindowSize, 0⟩]]) <+: p.conn.sent :=
    fun hn => changesWindowSetup_not_skipped W fuel c conn conn1 _ _ hreq hloop (by omega)
  have go2 : 5 ≤ h.Length → ∃ p, negativeWindowSetup W fuel c conn = some p ∧
      (conn1.sent ++ [Written.Settings [⟨SettingInitialWindowSize, 3⟩]]) <+: p.conn.sent :=
    fun hn => negativeWindowSetup_not_skipped W fuel c conn conn1 _ _ hreq hloop (by omega)
  refine ⟨⟨?_, ?_⟩, go1, ⟨?_, ?_⟩, go2⟩
  · intro hskip
    by_contra hne
    obtain ⟨p, hp, hpre⟩ := go1 (by omega)
    simp only [ChangesInitialWindowSize, hp] at hskip
    cases p with
    | returned err conn2 =>
      simp only [Option.some.injEq, Prod.mk.injEq] at hskip
      rw [hskip.2] at hpre
      exact append_singleton_not_initial _ _ hpre
    | continues conn2 =>
      have hs := waitForData_sent W fuel _ conn2 _ _ hskip
      simp only [Progress.conn] at hpre
      rw [← hs] at hpre
      exact append_singleton_not_initial _ _ hpre
  · intro h0
    have hlt : ((h.Length : Int) < 1) := by omega
    simp only [ChangesInitialWindowSize, changesWindowSetup, hreq, hloop, hlt, if_true]
  · intro hskip
    by_contra hne
    obtain ⟨p, hp, hpre⟩ := go2 (by omega)
    simp only [NegativeWindowSize, hp] at hskip
    cases p with
    | returned err conn2 =>
      simp only [Option.some.injEq, Prod.mk.injEq] at hskip
      rw [hskip.2] at hpre
      exact append_singleton_not_initial _ _ hpre
    | continues conn2 =>
      have hs := waitForData_sent W fuel _ conn2 _ _ hskip
      simp only [Progress.conn] at hpre
      rw [← hs] at hpre
      exact append_singleton_not_initial _ _ hpre
  · intro h0
    have hlt : ((h.Length : Int) < 5) := by omega
    simp only [NegativeWindowSize, negativeWindowSetup, hreq, hloop, hlt, if_true]

/-- The skip guards on the scripted peer whose first response body has 3
octets; the first DATA frame event is the second event delivered. -/
theorem skip_guards_witness :
    firstRequest scripted exampleConfig (freshConn threeOctetPeer) =
      (none, (firstRequest scripted exampleConfig (freshConn threeOctetPeer)).2) ∧
    eventAt scripted 1 (firstRequest scripted exampleConfig (freshConn threeOctetPeer)).2.env =
      Event.DataFrame ⟨3, 0x1, 1⟩ ∧
    1 < 10 ∧
    ((ChangesInitialWindowSize scripted 10 exampleConfig (freshConn threeOctetPeer) =
        some (Outcome.returned (some Error.ErrSkipped),
          { (firstRequest scripted exampleConfig (freshConn threeOctetPeer)).2 with
            env := stateAfter scripted (1 + 1)
              (firstRequest scripted exampleConfig (freshConn threeOctetPeer)).2.env }) ↔
        (3 : Nat) = 0) ∧
    ((1 : Nat) ≤ 3 → ∃ p, changesWindowSetup scripted 10 exampleConfig
        (freshConn threeOctetPeer) = some p ∧
      ((firstRequest scripted exampleConfig (freshConn threeOctetPeer)).2.sent ++
        [Written.Settings [⟨SettingInitialWindowSize, 0⟩]]) <+: p.conn.sent) ∧
    (NegativeWindowSize scripted 10 exampleConfig (freshConn threeOctetPeer) =
        some (Outcome.returned (some Error.ErrSkipped),
          { (firstRequest scripted exampleConfig (freshConn threeOctetPeer)).2 with
            env := stateAfter scripted (1 + 1)
              (firstRequest scripted exampleConfig (freshConn threeOctetPeer)).2.env }) ↔
        (3 : Nat) < 5) ∧
    ((5 : Nat) ≤ 3 → ∃ p, negativeWindowSetup scripted 10 exampleConfig
        (freshConn threeOctetPeer) = some p ∧
      ((firstRequest scripted exampleConfig (freshConn threeOctetPeer)).2.sent ++
        [Written.Settings [⟨SettingInitialWindowSize, 3⟩]]) <+: p.conn.sent)) :=
  ⟨rfl, rfl, by decide,
    skip_guards scripted exampleConfig (freshConn threeOctetPeer)
      (firstRequest scripted exampleConfig (freshConn threeOctetPeer)).2 1 ⟨3, 0x1, 1⟩ 10 rfl rfl
      (by
        intro j hj h'
        obtain rfl : j = 0 := by omega
        intro hc
        cases hc)
      (by decide)⟩

/-! ### Initial flow-control window size (6_9_2): the constants -/

/-- What the first request writes. -/
theorem firstRequest_sent {σ : Type} (W : World σ) (c : Config) (conn : Conn σ)
    (h : (firstRequest W c conn).1 = none) :
    ∃ block, (firstRequest W c conn).2.sent =
      conn.sent ++ [Written.Headers ⟨1, true, true, block⟩] := by
  unfold firstRequest at h ⊢
  cases hs : (W.Handshake conn.env).1 with
  | some err => simp [hs, Conn.call] at h
  | none =>
    exact ⟨(W.EncodeHeaders (W.CommonHeaders c) (W.Handshake conn.env).2).1,
      by simp [hs, Conn.call, Conn.write]⟩

/-- What the negative-window test has written when it reaches its waiting
loop. -/
theorem negativeWindowSetup_sent {σ : Type} (W : World σ) (fuel : Nat) (c : Config)
    (conn conn1 : Conn σ)
    (hsetup : negativeWindowSetup W fuel c conn = some (Progress.continues conn1)) :
    ∃ block1 block2, conn1.sent = conn.sent ++
      [Written.Headers ⟨1, true, true, block1⟩,
        Written.Settings [⟨SettingInitialWindowSize, 3⟩],
        Written.Headers ⟨3, true, true, block2⟩,
        Written.Settings [⟨SettingInitialWindowSize, 2⟩],
        Written.WindowUpdate 3 2] := by
  simp only [negativeWindowSetup, Conn.call, Conn.write] at hsetup
  split at hsetup
  · simp at hsetup
  · rename_i hreq
    obtain ⟨block1, hb⟩ := firstRequest_sent W c conn hreq
    split at hsetup
    · simp at hsetup
    · split at hsetup
      · simp at hsetup
      · split at hsetup
        · simp at hsetup
        · split at hsetup
          · simp at hsetup
          · split at hsetup
            · simp at hsetup
            · simp only [Option.some.injEq, Progress.continues.injEq] at hsetup
              subst hsetup
              exact ⟨block1, _, by simp [hb]; rfl⟩

/-- C10: the constants of the negative-window test agree with the window
arithmetic of RFC 7540. When the test reaches its waiting loop it has written,
for the second stream, SETTINGS(INITIAL_WINDOW_SIZE = 3), the request on
stream 3, SETTINGS(INITIAL_WINDOW_SIZE = 2) and WINDOW_UPDATE(stream 3, 2). A
conforming sender with a response body of at least 5 octets that receives
these writes opens stream 3 with window 3, sends 3 octets (window 0), has
window 0 + (2 - 3) = -1 after the second SETTINGS and sends nothing, has
window -1 + 2 = 1 after the WINDOW_UPDATE and sends a DATA frame of length 1;
and length 1 is what the type switch of the waiting loop accepts. -/
theorem negative_window_constants {σ : Type} (W : World σ) (fuel : Nat) (c : Config)
    (conn conn1 : Conn σ) (body : Nat)
    (hsetup : negativeWindowSetup W fuel c conn = some (Progress.continues conn1))
    (hbody : 5 ≤ body) :
    ∃ writes, conn1.sent = conn.sent ++ writes ∧
      ((Sender.fresh 3 body).run writes).steps =
        [SenderStep.window 3, SenderStep.data 3, SenderStep.window 0,
          SenderStep.window (0 + (2 - 3)), SenderStep.window (-1 + 2), SenderStep.data 1,
          SenderStep.window 0] ∧
      (0 : Int) + (2 - 3) = -1 ∧ (-1 : Int) + 2 = 1 ∧
      ∀ flags n, (waitStep (Event.DataFrame ⟨n, flags, 3⟩) none false).2 = true ↔ n = 1 := by
  obtain ⟨block1, block2, hsent⟩ := negativeWindowSetup_sent W fuel c conn conn1 hsetup
  refine ⟨_, hsent, ?_, by decide, by decide, ?_⟩
  · have h3 : min 3 body = 3 := by omega
    have h1 : min 1 (body - 3) = 1 := by omega
    have hb : 0 < body := by omega
    have hb3 : 0 < body - 3 := by omega
    simp [Sender.run, Sender.receive, Sender.fresh, Sender.applySetting, Sender.send,
      Sender.setWindow, SettingInitialWindowSize, h3, h1, hb, hb3]
  · intro flags n
    simp [waitStep]

/-- C10 (witness): the scripted peer with a body of 5 octets. -/
theorem negative_window_constants_witness :
    negativeWindowSetup scripted 10 exampleConfig (freshConn conformingPeer) =
      some (Progress.continues (negativeWindowLoopEntry conformingPeer)) ∧
    5 ≤ 5 ∧
    ∃ writes, (negativeWindowLoopEntry conformingPeer).sent =
        (freshConn conformingPeer).sent ++ writes ∧
      ((Sender.fresh 3 5).run writes).steps =
        [SenderStep.window 3, SenderStep.data 3, SenderStep.window 0,
          SenderStep.window (0 + (2 - 3)), SenderStep.window (-1 + 2), SenderStep.data 1,
          SenderStep.window 0] ∧
      (0 : Int) + (2 - 3) = -1 ∧ (-1 : Int) + 2 = 1 ∧
      ∀ flags n, (waitStep (Event.DataFrame ⟨n, flags, 3⟩) none false).2 = true ↔ n = 1 :=
  ⟨rfl, Nat.le_refl 5,
    negative_window_constants scripted 10 exampleConfig (freshConn conformingPeer)
      (negativeWindowLoopEntry conformingPeer) 5 rfl (Nat.le_refl 5)⟩

/-! ### Initial flow-control window size (6_9_2): the event reported as actual -/

/-- After the type switch `actual` is the event just delivered, or it is
unchanged. -/
theorem waitStep_actual (ev : Event) (actual : Option Event) (passed : Bool) :
    (waitStep ev actual passed).1 = some ev ∨ (waitStep ev actual passed).1 = actual := by
  cases ev <;> simp [waitStep]
  cases actual <;> simp

/-- From `actual == nil` the type switch leaves the event just delivered. -/
theorem waitStep_actual_nil (ev : Event) (passed : Bool) :
    (waitStep ev none passed).1 = some ev := by
  cases ev <;> simp [waitStep]

/-- When the waiting loop ends, `actual` is what it was on entry or an event
that `WaitEvent` delivered during the loop. -/
theorem waitDataLoop_actual {σ : Type} (W : World σ) :
    ∀ (fuel : Nat) (actual : Option Event) (passed : Bool) (s : σ) (a : Option Event)
      (p : Bool) (s' : σ),
      waitDataLoop W fuel actual passed s = some (a, p, s') →
      a = actual ∨ ∃ k, k < fuel ∧ a = some (eventAt W k s) := by
  intro fuel
  induction fuel with
  | zero =>
    intro actual passed s a p s' hl
    by_cases hc : W.Closed s = true
    · simp only [waitDataLoop, hc, if_true, Option.some.injEq, Prod.mk.injEq] at hl
      exact Or.inl hl.1.symm
    · simp [waitDataLoop, hc] at hl
  | succ f ih =>
    intro actual passed s a p s' hl
    by_cases hc : W.Closed s = true
    · simp only [waitDataLoop, hc, if_true, Option.some.injEq, Prod.mk.injEq] at hl
      exact Or.inl hl.1.symm
    · have hc' : W.Closed s = false := by simpa using hc
      simp only [waitDataLoop, hc', Bool.false_eq_true, if_false] at hl
      have hstep := waitStep_actual (W.WaitEvent s).1 actual passed
      by_cases hp : (waitStep (W.WaitEvent s).1 actual passed).2 = true
      · simp only [hp, if_true, Option.some.injEq, Prod.mk.injEq] at hl
        rcases hstep with h1 | h1
        · exact Or.inr ⟨0, Nat.succ_pos f, by rw [← hl.1, h1]; rfl⟩
        · exact Or.inl (by rw [← hl.1, h1])
      · have hp' : (waitStep (W.WaitEvent s).1 actual passed).2 = false := by simpa using hp
        simp only [hp', Bool.false_eq_true, if_false] at hl
        rcases ih _ _ _ _ _ _ hl with h2 | ⟨k, hk, h2⟩
        · rcases hstep with h1 | h1
          · exact Or.inr ⟨0, Nat.succ_pos f, by rw [h2, h1]; rfl⟩
          · exact Or.inl (by rw [h2, h1])
        · exact Or.inr ⟨k + 1, by omega, h2⟩

/-- When the connection is not closed on reaching the waiting loop, the loop
ends with an `actual` that is an event delivered by `WaitEvent`, hence not
nil. -/
theorem waitDataLoop_actual_of_open {σ : Type} (W : World σ) (fuel : Nat) (s : σ)
    (a : Option Event) (p : Bool) (s' : σ) (hopen : W.Closed s = false)
    (hl : waitDataLoop W fuel none false s = some (a, p, s')) :
    ∃ k, k < fuel ∧ a = some (eventAt W k s) := by
  cases fuel with
  | zero => simp [waitDataLoop, hopen] at hl
  | succ f =>
    simp only [waitDataLoop, hopen, Bool.false_eq_true, if_false] at hl
    have h1 := waitStep_actual_nil (W.WaitEvent s).1 false
    by_cases hp : (waitStep (W.WaitEvent s).1 none false).2 = true
    · simp only [hp, if_true, Option.some.injEq, Prod.mk.injEq] at hl
      exact ⟨0, Nat.succ_pos f, by rw [← hl.1, h1]; rfl⟩
    · have hp' : (waitStep (W.WaitEvent s).1 none false).2 = false := by simpa using hp
      simp only [hp', Bool.false_eq_true, if_false] at hl
      rcases waitDataLoop_actual W _ _ _ _ _ _ _ hl with h2 | ⟨k, hk, h2⟩
      · exact ⟨0, Nat.succ_pos f, by rw [h2, h1]; rfl⟩
      · exact ⟨k + 1, by omega, h2⟩

/-- When the connection is already closed on reaching the waiting loop, the
loop body does not run and the verdict calls `String()` on the nil `actual`. -/
theorem waitForData_closed {σ : Type} (W : World σ) (fuel streamID : Nat) (conn : Conn σ)
    (hclosed : W.Closed conn.env = true) :
    waitForData W fuel streamID conn = some (Outcome.nilDereference, conn) := by
  cases fuel <;> simp [waitForData, waitDataLoop, hclosed]

/-- A successful `VerifyFrameType` leaves the scripted connection open: the
flag `Closed` is only set when a terminal event is delivered. -/
theorem verifyFrameType_open (t : Nat) (s : Script)
    (h : (Script.VerifyFrameType t s).1 = none) :
    (Script.VerifyFrameType t s).2.Closed = false := by
  unfold Script.VerifyFrameType at h ⊢
  by_cases hc : s.Closed = true
  · simp [hc] at h
  · cases hq : s.queue.dropWhile (fun ev => ev.isSettingsAck && ev.frameType != some t) with
    | nil => simp [hc, hq] at h
    | cons ev rest =>
      simp only [hc, hq, Bool.false_eq_true, if_false] at h ⊢
      by_cases hf : ev.frameType = some t
      · cases ev <;> simp [Event.frameType, Event.terminal] at hf ⊢
      · simp [hf] at h

/-- On the scripted connection both flow-control tests reach their waiting
loop with the connection open: the statement before the loop is, or directly
follows, a `VerifyFrameType` that returned nil. -/
theorem scripted_loop_entry_open (fuel : Nat) (c : Config) (conn conn1 : Conn Script)
    (h : changesWindowSetup scripted fuel c conn = some (Progress.continues conn1) ∨
      negativeWindowSetup scripted fuel c conn = some (Progress.continues conn1)) :
    scripted.Closed conn1.env = false := by
  rcases h with h | h
  · simp only [changesWindowSetup, Conn.call, Conn.write] at h
    split at h
    · simp at h
    · split at h
      · simp at h
      · split at h
        · simp at h
        · split at h
          · simp at h
          · split at h
            · simp at h
            · rename_i hv
              simp only [Option.some.injEq, Progress.continues.injEq] at h
              subst h
              exact verifyFrameType_open _ _ hv
  · simp only [negativeWindowSetup, Conn.call, Conn.write] at h
    split at h
    · simp at h
    · split at h
      · simp at h
      · split at h
        · simp at h
        · split at h
          · simp at h
          · split at h
            · simp at h
            · split at h
              · simp at h
              · rename_i hv
                simp only [Option.some.injEq, Progress.continues.injEq] at h
                subst h
                exact verifyFrameType_open _ _ hv

/-- When the connection is open on reaching the waiting loop, the verdict is
nil or the `TestError` whose Actual is the `String()` of an event that
`WaitEvent` delivered during the loop; `String()` is not called on nil. -/
theorem waitForData_actual_of_open {σ : Type} (W : World σ) (fuel streamID : Nat)
    (conn conn2 : Conn σ) (o : Outcome) (hopen : W.Closed conn.env = false)
    (h : waitForData W fuel streamID conn = some (o, conn2)) :
    o = Outcome.returned none ∨
      ∃ k, k < fuel ∧ o = Outcome.returned (some (Error.TestError
        ["DATA Frame (length:1, flags:0x00, stream_id:" ++ toString streamID ++ ")"]
        (W.EventString (eventAt W k conn.env)))) := by
  unfold waitForData at h
  cases hl : waitDataLoop W fuel none false conn.env with
  | none => simp [hl] at h
  | some r =>
    obtain ⟨a, p, env⟩ := r
    obtain ⟨k, hk, ha⟩ := waitDataLoop_actual_of_open W fuel conn.env a p env hopen hl
    subst ha
    cases p with
    | true =>
      simp only [hl, Bool.not_true, Bool.false_eq_true, if_false, Option.some.injEq,
        Prod.mk.injEq] at h
      exact Or.inl h.1.symm
    | false =>
      simp only [hl, Bool.not_false, if_true, Option.some.injEq, Prod.mk.injEq] at h
      exact Or.inr ⟨k, hk, h.1.symm⟩

/-- C11 (as stated, refuted): when `conn.Closed` is already true on reaching
the waiting loop (the same code in both test cases), the loop body runs zero
times, `actual` is still nil and `passed` false, and the verdict calls
`actual.String()` on nil: no mismatch with a non-nil event is reported. -/
theorem wait_loop_closed_counterexample :
    scripted.Closed closedConn.env = true ∧
    waitDataLoop scripted 10 none false closedConn.env = some (none, false, closedConn.env) ∧
    (waitForData scripted 10 (1 + 2) closedConn).map (fun r => r.1) =
      some Outcome.nilDereference := by
  decide

/-- C11 (amended): in both test cases, when the connection is not closed on
reaching the waiting loop, the test case returns nil or reports a mismatch
whose Actual is the `String()` of a non-nil event that `conn.WaitEvent`
returned during the loop; it never calls `String()` on nil. -/
theorem wait_loop_actual_of_open {σ : Type} (W : World σ) (fuel : Nat) (c : Config)
    (conn conn1 : Conn σ) (hopen : W.Closed conn1.env = false) :
    (changesWindowSetup W fuel c conn = some (Progress.continues conn1) →
      ∀ o conn2, ChangesInitialWindowSize W fuel c conn = some (o, conn2) →
        o = Outcome.returned none ∨
          ∃ k, k < fuel ∧ o = Outcome.returned (some (Error.TestError
            ["DATA Frame (length:1, flags:0x00, stream_id:3)"]
            (W.EventString (eventAt W k conn1.env))))) ∧
    (negativeWindowSetup W fuel c conn = some (Progress.continues conn1) →
      ∀ o conn2, NegativeWindowSize W fuel c conn = some (o, conn2) →
        o = Outcome.returned none ∨
          ∃ k, k < fuel ∧ o = Outcome.returned (some (Error.TestError
            ["DATA Frame (length:1, flags:0x00, stream_id:3)"]
            (W.EventString (eventAt W k conn1.env))))) := by
  have hstr : "DATA Frame (length:1, flags:0x00, stream_id:" ++ toString (1 + 2) ++ ")" =
      "DATA Frame (length:1, flags:0x00, stream_id:3)" := by decide
  constructor
  · intro hsetup o conn2 hres
    simp only [ChangesInitialWindowSize, hsetup] at hres
    have := waitForData_actual_of_open W fuel (1 + 2) conn1 conn2 o hopen hres
    rw [hstr] at this
    exact this
  · intro hsetup o conn2 hres
    simp only [NegativeWindowSize, hsetup] at hres
    have := waitForData_actual_of_open W fuel (1 + 2) conn1 conn2 o hopen hres
    rw [hstr] at this
    exact this

/-- A scripted peer that sends 2 octets instead of 1 and closes the
connection: the negative-window test reports the last event delivered. -/
theorem negative_window_mismatch_example :
    (NegativeWindowSize scripted 10 exampleConfig (freshConn mismatchingPeer)).map
      (fun r => r.1) =
      some (Outcome.returned (some (Error.TestError
        ["DATA Frame (length:1, flags:0x00, stream_id:3)"] "Connection closed"))) := by
  decide

/-- C11 (witness): the scripted peer that sends 2 octets and closes the
connection; the test reaches its waiting loop with the connection open. -/
theorem wait_loop_actual_of_open_witness :
    scripted.Closed (negativeWindowLoopEntry mismatchingPeer).env = false ∧
    ((changesWindowSetup scripted 10 exampleConfig (freshConn mismatchingPeer) =
        some (Progress.continues (negativeWindowLoopEntry mismatchingPeer)) →
      ∀ o conn2, ChangesInitialWindowSize scripted 10 exampleConfig
          (freshConn mismatchingPeer) = some (o, conn2) →
        o = Outcome.returned none ∨
          ∃ k, k < 10 ∧ o = Outcome.returned (some (Error.TestError
            ["DATA Frame (length:1, flags:0x00, stream_id:3)"]
            (scripted.EventString
              (eventAt scripted k (negativeWindowLoopEntry mismatchingPeer).env))))) ∧
    (negativeWindowSetup scripted 10 exampleConfig (freshConn mismatchingPeer) =
        some (Progress.continues (negativeWindowLoopEntry mismatchingPeer)) →
      ∀ o conn2, NegativeWindowSize scripted 10 exampleConfig
          (freshConn mismatchingPeer) = some (o, conn2) →
        o = Outcome.returned none ∨
          ∃ k, k < 10 ∧ o = Outcome.returned (some (Error.TestError
            ["DATA Frame (length:1, flags:0x00, stream_id:3)"]
            (scripted.EventString
              (eventAt scripted k (negativeWindowLoopEntry mismatchingPeer).env)))))) :=
  ⟨rfl, wait_loop_actual_of_open scripted 10 exampleConfig (freshConn mismatchingPeer)
    (negativeWindowLoopEntry mismatchingPeer) rfl⟩

/-! ### Initial flow-control window size (6_9_2): the response-length loop -/

/-- An event that is not a DATA frame leaves `resLen` at -1: the loop makes
one more iteration. -/
theorem responseLengthLoop_skip {σ : Type} (W : World σ) (fuel : Nat) (s : σ)
    (h0 : ∀ h, (W.WaitEvent s).1 ≠ Event.DataFrame h) :
    responseLengthLoop W (fuel + 1) (-1) s = responseLengthLoop W fuel (-1) (W.WaitEvent s).2 := by
  simp only [responseLengthLoop, beq_self_eq_true, if_true]

/-- If some event is a DATA frame, the response-length loop ends. -/
theorem responseLengthLoop_ends {σ : Type} (W : World σ) :
    ∀ (k : Nat) (s : σ) (h : FrameHeader), eventAt W k s = Event.DataFrame h →
      ∃ fuel r, responseLengthLoop W fuel (-1) s = some r := by
  intro k
  induction k with
  | zero =>
    intro s h hev
    exact ⟨1, _, responseLengthLoop_data W 0 s h hev
      (fun j hj => absurd hj (Nat.not_lt_zero j)) 1 Nat.zero_lt_one⟩
  | succ k ih =>
    intro s h hev
    by_cases hd : ∃ h0, (W.WaitEvent s).1 = Event.DataFrame h0
    · obtain ⟨h0, hw⟩ := hd
      exact ⟨1, _, responseLengthLoop_data W 0 s h0 hw
        (fun j hj => absurd hj (Nat.not_lt_zero j)) 1 Nat.zero_lt_one⟩
    · obtain ⟨fuel, r, hr⟩ := ih (W.WaitEvent s).2 h hev
      refine ⟨fuel + 1, r, ?_⟩
      rw [responseLengthLoop_skip W fuel s (fun h0 hw => hd ⟨h0, hw⟩)]
      exact hr

/-- C12: for every connection, the response-length loop of the two
flow-control tests ends (for some number of iterations) if and only if
`WaitEvent` at some point delivers a DATA frame event; when it ends, `resLen`
is the length of the first DATA frame event and the loop has consumed the
events up to it; an event that is not a DATA frame (Timeout, ConnectionClosed,
Error or any other) leaves `resLen` at -1 and the loop goes on; and the loop
never ends if and only if no DATA frame event is ever delivered. -/
theorem response_length_loop_termination {σ : Type} (W : World σ) (s : σ) :
    ((∃ fuel r, responseLengthLoop W fuel (-1) s = some r) ↔
      ∃ k h, eventAt W k s = Event.DataFrame h) ∧
    (∀ fuel resLen s', responseLengthLoop W fuel (-1) s = some (resLen, s') →
      ∃ k h, k < fuel ∧ eventAt W k s = Event.DataFrame h ∧
        (∀ j, j < k → ∀ h', eventAt W j s ≠ Event.DataFrame h') ∧
        resLen = (h.Length : Int) ∧ s' = stateAfter W (k + 1) s) ∧
    (∀ fuel, (∀ h, (W.WaitEvent s).1 ≠ Event.DataFrame h) →
      responseLengthLoop W (fuel + 1) (-1) s =
        responseLengthLoop W fuel (-1) (W.WaitEvent s).2) ∧
    ((∀ fuel, responseLengthLoop W fuel (-1) s = none) ↔
      ∀ k h, eventAt W k s ≠ Event.DataFrame h) := by
  have hiff : (∃ fuel r, responseLengthLoop W fuel (-1) s = some r) ↔
      ∃ k h, eventAt W k s = Event.DataFrame h := by
    constructor
    · rintro ⟨fuel, ⟨resLen, s'⟩, hr⟩
      obtain ⟨k, h, _, hev, _⟩ := responseLengthLoop_some W fuel s resLen s' hr
      exact ⟨k, h, hev⟩
    · rintro ⟨k, h, hev⟩
      exact responseLengthLoop_ends W k s h hev
  refine ⟨hiff, ?_, ?_, ?_⟩
  · intro fuel resLen s' hr
    exact responseLengthLoop_some W fuel s resLen s' hr
  · intro fuel h0
    exact responseLengthLoop_skip W fuel s h0
  · constructor
    · intro hnone k h hev
      obtain ⟨fuel, r, hr⟩ := hiff.mpr ⟨k, h, hev⟩
      rw [hnone fuel] at hr
      cases hr
    · intro hno fuel
      cases hr : responseLengthLoop W fuel (-1) s with
      | none => rfl
      | some r =>
        obtain ⟨k, h, hev⟩ := hiff.mp ⟨fuel, r, hr⟩
        exact absurd hev (hno k h)

/-- A scripted peer that never answers: every call of `WaitEvent` delivers a
Timeout event and leaves the connection as it is. -/
theorem silent_peer_events (k : Nat) :
    stateAfter scripted k ⟨false, none, []⟩ = ⟨false, none, []⟩ ∧
    eventAt scripted k ⟨false, none, []⟩ = Event.Timeout := by
  have hs : ∀ k, stateAfter scripted k ⟨false, none, []⟩ = ⟨false, none, []⟩ := by
    intro k
    induction k with
    | zero => rfl
    | succ k ih => rw [stateAfter_succ]; exact ih
  exact ⟨hs k, by rw [eventAt, hs k]; rfl⟩

/-- A scripted peer that has closed the connection: every call of `WaitEvent`
delivers a ConnectionClosed event. -/
theorem closed_peer_events (k : Nat) :
    stateAfter scripted k ⟨true, none, []⟩ = ⟨true, none, []⟩ ∧
    eventAt scripted k ⟨true, none, []⟩ = Event.ConnectionClosed := by
  have hs : ∀ k, stateAfter scripted k ⟨true, none, []⟩ = ⟨true, none, []⟩ := by
    intro k
    induction k with
    | zero => rfl
    | succ k ih => rw [stateAfter_succ]; exact ih
  exact ⟨hs k, by rw [eventAt, hs k]; rfl⟩

/-- Against a peer that never answers, and against a peer that has closed the
connection, the response-length loop does not end, whatever the number of
iterations. -/
theorem responseLengthLoop_never_ends (fuel : Nat) :
    responseLengthLoop scripted fuel (-1) ⟨false, none, []⟩ = none ∧
    responseLengthLoop scripted fuel (-1) ⟨true, none, []⟩ = none := by
  constructor
  · cases hr : responseLengthLoop scripted fuel (-1) ⟨false, none, []⟩ with
    | none => rfl
    | some r =>
      obtain ⟨k, h, _, hev, _⟩ := responseLengthLoop_some scripted fuel _ r.1 r.2 hr
      rw [(silent_peer_events k).2] at hev
      cases hev
  · cases hr : responseLengthLoop scripted fuel (-1) ⟨true, none, []⟩ with
    | none => rfl
    | some r =>
      obtain ⟨k, h, _, hev, _⟩ := responseLengthLoop_some scripted fuel _ r.1 r.2 hr
      rw [(closed_peer_events k).2] at hev
      cases hev

/-- Against a peer that never answers, neither flow-control test ever returns:
both stay in their response-length loop, whatever the number of iterations. -/
theorem flow_control_tests_never_return (fuel : Nat) :
    ChangesInitialWindowSize scripted fuel exampleConfig (freshConn []) = none ∧
    NegativeWindowSize scripted fuel exampleConfig (freshConn []) = none := by
  have h1 : (firstRequest scripted exampleConfig (freshConn [])).1 = none := rfl
  have h2 : (firstRequest scripted exampleConfig (freshConn [])).2.env = ⟨false, none, []⟩ := rfl
  have h3 := (responseLengthLoop_never_ends fuel).1
  constructor
  · simp only [ChangesInitialWindowSize, changesWindowSetup, h1, h2, h3]
  · simp only [NegativeWindowSize, negativeWindowSetup, h1, h2, h3]

/-! ### PING (6_7_ping.go): the frame of the length test -/

/-- C13: when the handshake succeeds, the frame header that "Sends a PING
frame with a length field value other than 8" hands to `Send` declares length
6 and stream identifier 1, so the frame violates both PING requirements, the
one on the length (FRAME_SIZE_ERROR) and the one on the stream identifier
(PROTOCOL_ERROR), while the header of the stream-identifier test violates only
the second; the two headers differ only in the third octet, the low octet of
the length; and the length test returns what `VerifyConnectionError` returns
for the single expected code FRAME_SIZE_ERROR. -/
theorem ping_length_frame_violations {σ : Type} (W : World σ) (c : Config) (conn : Conn σ)
    (hs : (W.Handshake conn.env).1 = none) :
    ∃ lengthHeader lengthPayload streamHeader streamPayload hl hst,
      (PingLength W c conn).2.sent =
        conn.sent ++ [Written.Raw lengthHeader, Written.Raw lengthPayload] ∧
      (PingStreamIdentifier W c conn).2.sent =
        conn.sent ++ [Written.Raw streamHeader, Written.Raw streamPayload] ∧
      parseFrameHeader lengthHeader = some (hl, []) ∧
      parseFrameHeader streamHeader = some (hst, []) ∧
      hl.FrameType = FramePing ∧ hl.Length = 6 ∧ hl.StreamID = 1 ∧
      hst.FrameType = FramePing ∧ hst.Length = 8 ∧ hst.StreamID = 1 ∧
      pingViolations hl = [ErrCodeFrameSize, ErrCodeProtocol] ∧
      pingViolations hst = [ErrCodeProtocol] ∧
      differingPositions lengthHeader streamHeader = [2] ∧
      (PingLength W c conn).1 =
        (W.VerifyConnectionError [ErrCodeFrameSize]
          (W.transmit (Written.Raw lengthPayload)
            (W.transmit (Written.Raw lengthHeader) (W.Handshake conn.env).2).2).2).1 ∧
      ErrCodeProtocol ∉ [ErrCodeFrameSize] := by
  simp only [PingStreamIdentifier, PingLength, Conn.call, Conn.write, hs,
    List.append_assoc, List.singleton_append, List.cons_append, List.nil_append]
  refine ⟨_, _, _, _, _, _, rfl, rfl, rfl, rfl, ?_, ?_, ?_, ?_, ?_, ?_, ?_, ?_, ?_, rfl, ?_⟩ <;>
    decide

/-- C13 (witness): the scripted connection, whose handshake succeeds. -/
theorem ping_length_frame_violations_witness :
    (scripted.Handshake (freshConn []).env).1 = none ∧
    ∃ lengthHeader lengthPayload streamHeader streamPayload hl hst,
      (PingLength scripted exampleConfig (freshConn [])).2.sent =
        (freshConn []).sent ++ [Written.Raw lengthHeader, Written.Raw lengthPayload] ∧
      (PingStreamIdentifier scripted exampleConfig (freshConn [])).2.sent =
        (freshConn []).sent ++ [Written.Raw streamHeader, Written.Raw streamPayload] ∧
      parseFrameHeader lengthHeader = some (hl, []) ∧
      parseFrameHeader streamHeader = some (hst, []) ∧
      hl.FrameType = FramePing ∧ hl.Length = 6 ∧ hl.StreamID = 1 ∧
      hst.FrameType = FramePing ∧ hst.Length = 8 ∧ hst.StreamID = 1 ∧
      pingViolations hl = [ErrCodeFrameSize, ErrCodeProtocol] ∧
      pingViolations hst = [ErrCodeProtocol] ∧
      differingPositions lengthHeader streamHeader = [2] ∧
      (PingLength scripted exampleConfig (freshConn [])).1 =
        (scripted.VerifyConnectionError [ErrCodeFrameSize]
          (scripted.transmit (Written.Raw lengthPayload)
            (scripted.transmit (Written.Raw lengthHeader)
              (scripted.Handshake (freshConn []).env).2).2).2).1 ∧
      ErrCodeProtocol ∉ [ErrCodeFrameSize] :=
  ⟨rfl, ping_length_frame_violations scripted exampleConfig (freshConn []) rfl⟩

end H2spec
